import Mathlib

/-!
# USB GPIO extcon driver

A shallow embedding of `drivers/extcon/extcon-usb-gpio.c`: the cable detector
`usb_extcon_detect_cable`, the interrupt handler `usb_irq_handler`, the probe
routine, the OTG switch `otg_switch_mode` and the suspend / resume hooks.

The C globals (`otg_switch_flage`, `cur_irq`, `usb_state`) and the device's
`struct usb_extcon_info` (reachable through `otg_info`) are fields of one
record `Driver`, together with the pieces of the environment the driver
acts on (published cable states, USB_ID pin register, attached interrupts,
wake arming, the delayed work slot).  Results of kernel calls that the driver
cannot determine itself (line levels, errno of a request) are explicit inputs.
-/

namespace ExtconUsbGpio

/-! ## Constants -/

/-- Modelled from the spec: the Logical Role value None. The numeric cable id
comes from the header linux/extcon.h, which is not part of the sources at hand. -/
def EXTCON_NONE : Nat := 0

/-- Modelled from the spec: the Logical Role / capability Peripheral ("USB").
The numeric cable id comes from linux/extcon.h, not part of the sources at hand. -/
def EXTCON_USB : Nat := 1

/-- Modelled from the spec: the Logical Role / capability Host ("USB-HOST").
The numeric cable id comes from linux/extcon.h, not part of the sources at hand. -/
def EXTCON_USB_HOST : Nat := 2

/-- The macro `USB_GPIO_DEBOUNCE_MS`. -/
def USB_GPIO_DEBOUNCE_MS : Nat := 20

/-- Modelled from the spec: errno numbers of the configuration / resource
errors, from the header uapi/asm-generic/errno-base.h (not at hand). -/
def ENOMEM : Int := 12

/-- Modelled from the spec: errno of a missing device (errno-base.h, not at hand). -/
def ENODEV : Int := 19

/-- Modelled from the spec: errno of an invalid argument (errno-base.h, not at hand). -/
def EINVAL : Int := 22

/-- Value written to the USB_ID pin register to pull the ID line up; the
argument is whether `VENDOR_KERNEL` is defined at build time. -/
def USB_ID_PULL_UP (VENDOR_KERNEL : Bool) : Nat :=
  if VENDOR_KERNEL then 0x0008208a else 0x00080089

/-- Value written to the USB_ID pin register to pull the ID line down; the
argument is whether `VENDOR_KERNEL` is defined at build time. -/
def USB_ID_PULL_DOWN (VENDOR_KERNEL : Bool) : Nat :=
  if VENDOR_KERNEL then 0x00082045 else 0x00080045

/-! ## Data model -/

/-- The fields of `struct usb_extcon_info` the driver logic reads.  A GPIO
descriptor is represented by whether the pointer is non-NULL. -/
structure usb_extcon_info where
  id_gpiod : Bool
  vbus_gpiod : Bool
  id_irq : Int
  vbus_irq : Int
  debounce_jiffies : Nat
  deriving DecidableEq, Repr

/-- Modelled from the spec: the State Publisher (struct extcon_dev of
linux/extcon-provider.h, not at hand) with its two capability flags. -/
structure extcon_dev where
  usb : Bool
  usb_host : Bool
  deriving DecidableEq, Repr

/-- Result of a kernel call that returns 0 on success and a negative errno
otherwise; `err e` stands for the return value `-(e+1)`. -/
inductive KRet where
  | ok
  | err (e : Nat)
  deriving DecidableEq, Repr

/-- The C `int` a `KRet` stands for. -/
def KRet.val : KRet → Int
  | .ok => 0
  | .err e => -((e : Int) + 1)

/-- What `devm_gpiod_get_optional` hands back: NULL, an error pointer or a
valid descriptor; `err e` stands for `ERR_PTR(-(e+1))`. -/
inductive GpiodResult where
  | null
  | err (e : Nat)
  | desc
  deriving DecidableEq, Repr

/-- Pointer test `gpiod != NULL` (an error pointer is not NULL). -/
def GpiodResult.nonnull : GpiodResult → Bool
  | .null => false
  | _ => true

/-- Whole state: the C globals, the device instance and the environment the
driver acts on. -/
structure Driver where
  /-- the instance `*otg_info` -/
  info : usb_extcon_info
  /-- published capability flags of `info->edev` -/
  edev : extcon_dev
  /-- whether `devm_extcon_dev_register` succeeded -/
  edev_registered : Bool
  /-- global `otg_switch_flage` -/
  otg_switch_flage : Int
  /-- global `cur_irq` (the trigger record) -/
  cur_irq : Int
  /-- global `usb_state` (the logical role) -/
  usb_state : Nat
  /-- last value written to the USB_ID pin register, if any -/
  usb_id_reg : Option Nat
  /-- whether `usb_irq_handler` is attached to `id_irq` -/
  id_irq_requested : Bool
  /-- whether `usb_irq_handler` is attached to `vbus_irq` -/
  vbus_irq_requested : Bool
  /-- wake arming depth of `id_irq` -/
  id_wake : Nat
  /-- wake arming depth of `vbus_irq` -/
  vbus_wake : Nat
  /-- result of `device_may_wakeup(dev)` -/
  may_wakeup : Bool
  /-- whether the pinctrl sleep state is selected -/
  pinctrl_sleep : Bool
  /-- the delayed work `wq_detcable`: `some d` when pending with delay `d` -/
  wq_detcable : Option Nat
  deriving DecidableEq, Repr

/-- Hardware and kernel operations issued by `otg_switch_mode`, in order. -/
inductive HwOp where
  | ioremap
  | iounmap
  | writel (v : Nat)
  | msleep (ms : Nat)
  | request_irq (irq : Int)
  | disable_irq (irq : Int)
  | free_irq (irq : Int)
  deriving DecidableEq, Repr

/-! ## Kernel helpers called by the driver -/

/-- Modelled from the spec: reading a sense line (gpiod_get_value_cansleep and
gpiod_get_value of gpiolib, not at hand); an absent line reads as 0. -/
def gpiod_get_value_cansleep (present : Bool) (level : Int) : Int :=
  if present then level else 0

/-- Modelled from the spec: the State Publisher call that sets capability
`id` active or inactive (extcon_set_state_sync of the extcon core, not at
hand); synchronous and idempotent. -/
def extcon_set_state_sync (e : extcon_dev) (id : Nat) (v : Bool) : extcon_dev :=
  if id = EXTCON_USB then { e with usb := v }
  else if id = EXTCON_USB_HOST then { e with usb_host := v }
  else e

/-- The call `extcon_set_state_sync(info->edev, id, v)` on the driver state. -/
def set_state (s : Driver) (id : Nat) (v : Bool) : Driver :=
  { s with edev := extcon_set_state_sync s.edev id v }

/-- Modelled from the spec: scheduling the Debounced Detector on the
single-slot delayed work (queue_delayed_work of the workqueue core, not at
hand): the detector is set to run once after `delay`, replacing an already
pending timer. -/
def queue_delayed_work (s : Driver) (delay : Nat) : Driver :=
  { s with wq_detcable := some delay }

/-! ## The detector -/

/-- The function `usb_extcon_detect_cable`; `id_level` and `vbus_level` are
what the two lines read at this instant. -/
def usb_extcon_detect_cable (s : Driver) (id_level vbus_level : Int) : Driver :=
  let id := gpiod_get_value_cansleep s.info.id_gpiod id_level
  let vbus := gpiod_get_value_cansleep s.info.vbus_gpiod vbus_level
  let s1 : Driver :=
    if s.info.id_gpiod = true ∧ s.cur_irq = s.info.id_irq then
      if id ≠ 0 then
        { set_state s EXTCON_USB_HOST false with usb_state := EXTCON_NONE }
      else
        { set_state (set_state s EXTCON_USB false) EXTCON_USB_HOST true with
          usb_state := EXTCON_USB_HOST }
    else if s.cur_irq = s.info.vbus_irq then
      if vbus = 0 then
        { set_state s EXTCON_USB false with usb_state := EXTCON_NONE }
      else
        { set_state s EXTCON_USB true with usb_state := EXTCON_USB }
    else if s.usb_state = EXTCON_NONE then
      let s0 := set_state s EXTCON_USB_HOST false
      if vbus = 0 then
        { set_state s0 EXTCON_USB false with usb_state := EXTCON_NONE }
      else
        { set_state s0 EXTCON_USB true with usb_state := EXTCON_USB }
    else if s.usb_state = EXTCON_USB then
      if vbus = 0 then
        { set_state s EXTCON_USB false with usb_state := EXTCON_NONE }
      else
        { set_state s EXTCON_USB true with usb_state := EXTCON_USB }
    else if s.usb_state = EXTCON_USB_HOST then
      if id ≠ 0 then
        { set_state s EXTCON_USB_HOST false with usb_state := EXTCON_NONE }
      else
        { set_state s EXTCON_USB_HOST true with usb_state := EXTCON_USB_HOST }
    else s
  { s1 with cur_irq := 0 }

/-- The function `usb_irq_handler`: record the interrupt and schedule the
detector after the debounce delay. -/
def usb_irq_handler (s : Driver) (irq : Int) : Driver :=
  queue_delayed_work { s with cur_irq := irq } s.info.debounce_jiffies

/-- The workqueue running the pending delayed work: the slot is cleared and
the detector runs on the current line levels; nothing happens when no work is
pending. -/
def worker (s : Driver) (id_level vbus_level : Int) : Driver :=
  match s.wq_detcable with
  | none => s
  | some _ => usb_extcon_detect_cable { s with wq_detcable := none } id_level vbus_level

/-! ## Probe -/

/-- Everything `usb_extcon_probe` obtains from the platform and the kernel. -/
structure ProbeEnv where
  /-- `dev->of_node != NULL` -/
  of_node : Bool
  /-- `devm_kzalloc` returned memory -/
  kzalloc_ok : Bool
  id_gpiod : GpiodResult
  vbus_gpiod : GpiodResult
  /-- `devm_extcon_dev_allocate` did not return an error pointer -/
  edev_alloc_ok : Bool
  register_ret : KRet
  id_debounce_ret : KRet
  vbus_debounce_ret : KRet
  /-- value of `msecs_to_jiffies(USB_GPIO_DEBOUNCE_MS)` -/
  debounce_default : Nat
  /-- `gpiod_to_irq(info->id_gpiod)` -/
  id_to_irq : Int
  /-- `ioremap` returned a mapping -/
  ioremap_ok : Bool
  /-- `gpiod_to_irq(info->vbus_gpiod)` -/
  vbus_to_irq : Int
  vbus_request_ret : KRet
  /-- line levels seen by the initial detection -/
  id_level : Int
  vbus_level : Int
  deriving DecidableEq, Repr

/-- State at module load: the static initialisers of the globals, nothing
published, attached or armed. -/
def module_load : Driver :=
  { info := { id_gpiod := false, vbus_gpiod := false, id_irq := 0, vbus_irq := 0,
              debounce_jiffies := 0 }
    edev := { usb := false, usb_host := false }
    edev_registered := false
    otg_switch_flage := 0
    cur_irq := 0
    usb_state := EXTCON_NONE
    usb_id_reg := none
    id_irq_requested := false
    vbus_irq_requested := false
    id_wake := 0
    vbus_wake := 0
    may_wakeup := false
    pinctrl_sleep := false
    wq_detcable := none }

/-- Second half of `usb_extcon_probe`, from `INIT_DELAYED_WORK` on: interrupt
numbers, the USB_ID pull-down, the VBUS handler and the initial detection. -/
def probe_irqs (VENDOR_KERNEL : Bool) (s : Driver) (env : ProbeEnv) : Int × Driver :=
  if s.info.id_gpiod = true ∧ env.id_to_irq < 0 then
    (env.id_to_irq, { s with info := { s.info with id_irq := env.id_to_irq } })
  else if s.info.id_gpiod = true ∧ env.ioremap_ok = false then
    (-EINVAL, { s with info := { s.info with id_irq := env.id_to_irq } })
  else
    let s1 : Driver :=
      if s.info.id_gpiod then
        { s with info := { s.info with id_irq := env.id_to_irq }
                 usb_id_reg := some (USB_ID_PULL_DOWN VENDOR_KERNEL) }
      else s
    if s1.info.vbus_gpiod = true ∧ env.vbus_to_irq < 0 then
      (env.vbus_to_irq, { s1 with info := { s1.info with vbus_irq := env.vbus_to_irq } })
    else if s1.info.vbus_gpiod = true ∧ env.vbus_request_ret.val < 0 then
      (env.vbus_request_ret.val,
        { s1 with info := { s1.info with vbus_irq := env.vbus_to_irq } })
    else
      let s2 : Driver :=
        if s1.info.vbus_gpiod then
          { s1 with info := { s1.info with vbus_irq := env.vbus_to_irq }
                    vbus_irq_requested := true }
        else s1
      (0, usb_extcon_detect_cable s2 env.id_level env.vbus_level)

/-- The debounce set-up of `usb_extcon_probe`: `gpiod_set_debounce` on each
present line (the second only when the first did not fail), and the fallback
to the default delay in jiffies when a call failed.  `ret` is the value the
variable holds on entry. -/
def probe_debounce (s : Driver) (env : ProbeEnv) (ret : Int) : Driver :=
  let ret : Int := if s.info.id_gpiod then env.id_debounce_ret.val else ret
  let ret : Int :=
    if ret = 0 ∧ s.info.vbus_gpiod = true then env.vbus_debounce_ret.val else ret
  if ret < 0 then
    { s with info := { s.info with debounce_jiffies := env.debounce_default } }
  else s

/-- Middle part of `usb_extcon_probe`: allocation and registration of the
extcon device, debounce set-up, then `probe_irqs`. -/
def probe_register (VENDOR_KERNEL : Bool) (s : Driver) (env : ProbeEnv) : Int × Driver :=
  if env.edev_alloc_ok = false then (-ENOMEM, s)
  else if env.register_ret.val < 0 then
    (env.register_ret.val, { s with edev := { usb := false, usb_host := false } })
  else
    probe_irqs VENDOR_KERNEL
      (probe_debounce
        { s with edev := { usb := false, usb_host := false }, edev_registered := true }
        env env.register_ret.val)
      env

/-- The function `usb_extcon_probe`, started in state `g` (the globals keep
their values); returns the C return value and the state at return. -/
def usb_extcon_probe (VENDOR_KERNEL : Bool) (g : Driver) (env : ProbeEnv) : Int × Driver :=
  if env.of_node = false then (-EINVAL, g)
  else if env.kzalloc_ok = false then (-ENOMEM, g)
  else
    let s : Driver :=
      { g with info := { id_gpiod := env.id_gpiod.nonnull
                         vbus_gpiod := env.vbus_gpiod.nonnull
                         id_irq := 0, vbus_irq := 0, debounce_jiffies := 0 } }
    if s.info.id_gpiod = false ∧ s.info.vbus_gpiod = false then (-ENODEV, s)
    else
      match env.id_gpiod, env.vbus_gpiod with
      | .err e, _ => (-((e : Int) + 1), s)
      | _, .err e => (-((e : Int) + 1), s)
      | _, _ => probe_register VENDOR_KERNEL s env

/-! ## The OTG switch -/

/-- What one call of `otg_switch_mode` meets: whether `ioremap` succeeds, the
result of `devm_request_threaded_irq` (used on the enable path) and the level
of the ID line (read on the disable path). -/
structure OtgEnv where
  ioremap_ok : Bool
  request_irq_ret : KRet
  id_level : Int
  deriving DecidableEq, Repr

/-- The function `otg_switch_mode(value)`: the state at return and the
operations issued, in order. -/
def otg_switch_mode (VENDOR_KERNEL : Bool) (s : Driver) (value : Int) (env : OtgEnv) :
    Driver × List HwOp :=
  if s.info.id_gpiod = false then (s, [])
  else if env.ioremap_ok = false then (s, [HwOp.ioremap])
  else if value ≠ 0 then
    if s.otg_switch_flage = 0 then
      let s1 : Driver := { s with usb_id_reg := some (USB_ID_PULL_UP VENDOR_KERNEL) }
      if env.request_irq_ret.val < 0 then
        ({ s1 with usb_id_reg := some (USB_ID_PULL_DOWN VENDOR_KERNEL) },
          [HwOp.ioremap, HwOp.writel (USB_ID_PULL_UP VENDOR_KERNEL), HwOp.msleep 100,
           HwOp.request_irq s.info.id_irq, HwOp.writel (USB_ID_PULL_DOWN VENDOR_KERNEL),
           HwOp.iounmap])
      else
        ({ s1 with id_irq_requested := true, otg_switch_flage := 1 },
          [HwOp.ioremap, HwOp.writel (USB_ID_PULL_UP VENDOR_KERNEL), HwOp.msleep 100,
           HwOp.request_irq s.info.id_irq, HwOp.iounmap])
    else (s, [HwOp.ioremap, HwOp.iounmap])
  else
    if s.otg_switch_flage ≠ 0 then
      let s1 : Driver := { s with otg_switch_flage := 0 }
      let s2 : Driver :=
        if gpiod_get_value_cansleep s1.info.id_gpiod env.id_level = 0 then
          set_state s1 EXTCON_USB_HOST false
        else s1
      ({ s2 with id_irq_requested := false
                 usb_id_reg := some (USB_ID_PULL_DOWN VENDOR_KERNEL) },
        [HwOp.ioremap, HwOp.disable_irq s.info.id_irq, HwOp.free_irq s.info.id_irq,
         HwOp.writel (USB_ID_PULL_DOWN VENDOR_KERNEL), HwOp.iounmap])
    else (s, [HwOp.ioremap, HwOp.iounmap])

/-- One call of `otg_switch_mode` with its argument and what it meets. -/
structure OtgCall where
  value : Int
  env : OtgEnv
  deriving DecidableEq, Repr

/-- State after a sequence of `otg_switch_mode` calls. -/
def otg_calls (VENDOR_KERNEL : Bool) (s : Driver) : List OtgCall → Driver
  | [] => s
  | c :: cs => otg_calls VENDOR_KERNEL (otg_switch_mode VENDOR_KERNEL s c.value c.env).1 cs

/-! ## Suspend and resume -/

/-- Results of the wake calls of one suspend or resume: the call on the ID
interrupt, the call on the VBUS interrupt, and the rollback call on the ID
interrupt. -/
structure PmEnv where
  id_ret : KRet
  vbus_ret : KRet
  rollback_ret : KRet
  deriving DecidableEq, Repr

/-- Modelled from the spec: arming wake-on-interrupt for the ID line
(enable_irq_wake of the irq core, not at hand); a failing call arms nothing. -/
def enable_irq_wake_id (s : Driver) (r : KRet) : Driver :=
  match r with
  | .ok => { s with id_wake := s.id_wake + 1 }
  | .err _ => s

/-- Modelled from the spec: arming wake-on-interrupt for the VBUS line
(enable_irq_wake of the irq core, not at hand); a failing call arms nothing. -/
def enable_irq_wake_vbus (s : Driver) (r : KRet) : Driver :=
  match r with
  | .ok => { s with vbus_wake := s.vbus_wake + 1 }
  | .err _ => s

/-- Modelled from the spec: disarming wake-on-interrupt for the ID line
(disable_irq_wake of the irq core, not at hand); a failing call changes nothing. -/
def disable_irq_wake_id (s : Driver) (r : KRet) : Driver :=
  match r with
  | .ok => { s with id_wake := s.id_wake - 1 }
  | .err _ => s

/-- Modelled from the spec: disarming wake-on-interrupt for the VBUS line
(disable_irq_wake of the irq core, not at hand); a failing call changes nothing. -/
def disable_irq_wake_vbus (s : Driver) (r : KRet) : Driver :=
  match r with
  | .ok => { s with vbus_wake := s.vbus_wake - 1 }
  | .err _ => s

/-- The function `usb_extcon_suspend`. -/
def usb_extcon_suspend (s : Driver) (env : PmEnv) : Int × Driver :=
  if s.may_wakeup then
    let s1 : Driver := if s.info.id_gpiod then enable_irq_wake_id s env.id_ret else s
    if s.info.id_gpiod = true ∧ env.id_ret.val ≠ 0 then (env.id_ret.val, s1)
    else if s.info.vbus_gpiod then
      let s2 : Driver := enable_irq_wake_vbus s1 env.vbus_ret
      if env.vbus_ret.val ≠ 0 then
        (env.vbus_ret.val,
          if s.info.id_gpiod then disable_irq_wake_id s2 env.rollback_ret else s2)
      else (env.vbus_ret.val, s2)
    else ((if s.info.id_gpiod then env.id_ret.val else 0), s1)
  else (0, { s with pinctrl_sleep := true })

/-- The function `usb_extcon_resume`. -/
def usb_extcon_resume (s : Driver) (env : PmEnv) : Int × Driver :=
  let s0 : Driver := if s.may_wakeup then s else { s with pinctrl_sleep := false }
  if s0.may_wakeup then
    let s1 : Driver := if s0.info.id_gpiod then disable_irq_wake_id s0 env.id_ret else s0
    if s0.info.id_gpiod = true ∧ env.id_ret.val ≠ 0 then (env.id_ret.val, s1)
    else if s0.info.vbus_gpiod then
      let s2 : Driver := disable_irq_wake_vbus s1 env.vbus_ret
      if env.vbus_ret.val ≠ 0 then
        (env.vbus_ret.val,
          if s0.info.id_gpiod then enable_irq_wake_id s2 env.rollback_ret else s2)
      else (env.vbus_ret.val, queue_delayed_work s2 0)
    else ((if s0.info.id_gpiod then env.id_ret.val else 0), queue_delayed_work s1 0)
  else (0, queue_delayed_work s0 0)

/-! ## Detector evaluations -/

/-- What makes the detector run: an edge on the ID line, an edge on the VBUS
line, or a forced run (zero-delay scheduling with no interrupt recorded). -/
inductive Trigger where
  | id
  | vbus
  | forced
  deriving DecidableEq, Repr

/-- One evaluation of the detector: its trigger and the two line levels it
samples. -/
structure Eval where
  trig : Trigger
  id_level : Int
  vbus_level : Int
  deriving DecidableEq, Repr

/-- One detector evaluation: the interrupt handler (or, when forced, a
zero-delay scheduling) followed by the run of the delayed work. -/
def evaluate (s : Driver) (e : Eval) : Driver :=
  match e.trig with
  | .id => worker (usb_irq_handler s s.info.id_irq) e.id_level e.vbus_level
  | .vbus => worker (usb_irq_handler s s.info.vbus_irq) e.id_level e.vbus_level
  | .forced => worker (queue_delayed_work s 0) e.id_level e.vbus_level

/-- State after a sequence of detector evaluations. -/
def evaluations (s : Driver) : List Eval → Driver
  | [] => s
  | e :: es => evaluations (evaluate s e) es

/-- Both sense lines are wired: both descriptors are present, both interrupt
numbers are valid (non-zero) and they differ. -/
def both_wired (s : Driver) : Prop :=
  s.info.id_gpiod = true ∧ s.info.vbus_gpiod = true ∧
  s.info.id_irq ≠ 0 ∧ s.info.vbus_irq ≠ 0 ∧ s.info.id_irq ≠ s.info.vbus_irq

instance (s : Driver) : Decidable (both_wired s) := by
  unfold both_wired; infer_instance

/-- The initial state of the detector: role None, nothing published active,
no interrupt recorded. -/
def initial (s : Driver) : Prop :=
  s.usb_state = EXTCON_NONE ∧ s.edev.usb = false ∧ s.edev.usb_host = false ∧ s.cur_irq = 0

instance (s : Driver) : Decidable (initial s) := by
  unfold initial; infer_instance

/-- A platform with both sense lines, ID on interrupt 37 and VBUS on
interrupt 38, where every kernel call succeeds and both lines read 0 but for
the given levels. -/
def both_lines_env (id_level vbus_level : Int) : ProbeEnv :=
  { of_node := true, kzalloc_ok := true
    id_gpiod := GpiodResult.desc, vbus_gpiod := GpiodResult.desc
    edev_alloc_ok := true, register_ret := KRet.ok
    id_debounce_ret := KRet.ok, vbus_debounce_ret := KRet.ok
    debounce_default := 2
    id_to_irq := 37, ioremap_ok := true, vbus_to_irq := 38
    vbus_request_ret := KRet.ok
    id_level := id_level, vbus_level := vbus_level }

/-- The platform of `both_lines_env` without a VBUS line (ID only). -/
def id_only_env (id_level : Int) : ProbeEnv :=
  { both_lines_env id_level 0 with vbus_gpiod := GpiodResult.null }

/-- The platform of `both_lines_env` without an ID line (VBUS only). -/
def vbus_only_env (vbus_level : Int) : ProbeEnv :=
  { both_lines_env 0 vbus_level with id_gpiod := GpiodResult.null }

/-- State after a successful probe of the two-line platform with both lines
reading 0. -/
def probed_both : Driver :=
  (usb_extcon_probe false module_load (both_lines_env 0 0)).2

/-- The state `probed_both` after host sensing was switched on. -/
def otg_on_both : Driver :=
  (otg_switch_mode false probed_both 1
    { ioremap_ok := true, request_irq_ret := KRet.ok, id_level := 0 }).1

/-- State after a successful probe of the ID-only platform (ID reading 1),
with host sensing switched on afterwards. -/
def otg_on_id_only : Driver :=
  (otg_switch_mode false (usb_extcon_probe false module_load (id_only_env 1)).2 1
    { ioremap_ok := true, request_irq_ret := KRet.ok, id_level := 1 }).1

/-- A `PmEnv` in which every wake call succeeds. -/
def pm_ok : PmEnv :=
  { id_ret := KRet.ok, vbus_ret := KRet.ok, rollback_ret := KRet.ok }

/-- Whether an operation is a write of the pull-up value to the USB_ID pin
register. -/
def HwOp.is_pull_up (VENDOR_KERNEL : Bool) : HwOp → Bool
  | .writel v => decide (v = USB_ID_PULL_UP VENDOR_KERNEL)
  | _ => false

/-- Whether an operation attaches an interrupt handler. -/
def HwOp.is_request_irq : HwOp → Bool
  | .request_irq _ => true
  | _ => false

/-- The state `otg_on_both` after an ID-triggered evaluation that read ID = 0:
host sensing on and Host published active. -/
def host_active_both : Driver :=
  evaluate otg_on_both ⟨Trigger.id, 0, 0⟩

/-- Consistency of the OTG switch with the wiring: the ID line is present and
either the flag is clear, the ID interrupt unattached and the bias pulled
down, or the flag is set, the ID interrupt attached and the bias pulled up. -/
def otg_consistent (VENDOR_KERNEL : Bool) (s : Driver) : Prop :=
  s.info.id_gpiod = true ∧
  ((s.otg_switch_flage = 0 ∧ s.id_irq_requested = false ∧
      s.usb_id_reg = some (USB_ID_PULL_DOWN VENDOR_KERNEL)) ∨
   (s.otg_switch_flage ≠ 0 ∧ s.id_irq_requested = true ∧
      s.usb_id_reg = some (USB_ID_PULL_UP VENDOR_KERNEL)))

/-- Calls used to exercise the OTG switch: an enable whose attach fails, an
enable that succeeds, a repeated enable, a disable and a repeated disable. -/
def sample_calls : List OtgCall :=
  [ ⟨1, ⟨true, KRet.err 15, 0⟩⟩, ⟨1, ⟨true, KRet.ok, 0⟩⟩, ⟨1, ⟨true, KRet.ok, 0⟩⟩,
    ⟨0, ⟨true, KRet.ok, 1⟩⟩, ⟨0, ⟨true, KRet.ok, 0⟩⟩ ]

/-- The value `otg_switch_mode` hands back to its caller.  The function is
declared `void otg_switch_mode(int value)`: whatever the call meets, the
caller receives the one value of `Unit`. -/
def otg_switch_mode_ret (_VENDOR_KERNEL : Bool) (_s : Driver) (_value : Int)
    (_env : OtgEnv) : Unit :=
  ()

/-- The state `probed_both` on a device that user space made a wake source. -/
def wake_both : Driver :=
  { probed_both with may_wakeup := true }

/-- The arming (on suspend) or disarming (on resume) calls that are made all
succeed: the call on the ID interrupt when the ID line is present, and the
call on the VBUS interrupt when the VBUS line is present and the ID call did
not fail. -/
def wake_calls_ok (s : Driver) (env : PmEnv) : Prop :=
  (s.info.id_gpiod = true → env.id_ret = KRet.ok) ∧
  (s.info.vbus_gpiod = true → (s.info.id_gpiod = true → env.id_ret = KRet.ok) →
    env.vbus_ret = KRet.ok)

instance (s : Driver) (env : PmEnv) : Decidable (wake_calls_ok s env) := by
  unfold wake_calls_ok; infer_instance

/-- A platform on which neither sense line is provided; everything else as in
`both_lines_env`. -/
def no_lines_env : ProbeEnv :=
  { both_lines_env 1 1 with id_gpiod := GpiodResult.null, vbus_gpiod := GpiodResult.null }

/-- The recorded role is one of None, Peripheral, Host. -/
def role_known (s : Driver) : Prop :=
  s.usb_state = EXTCON_NONE ∨ s.usb_state = EXTCON_USB ∨ s.usb_state = EXTCON_USB_HOST

instance (s : Driver) : Decidable (role_known s) := by
  unfold role_known; infer_instance

/-- VBUS-only wiring: no ID descriptor (its interrupt number stays 0), a VBUS
descriptor with a valid interrupt number. -/
def vbus_only (s : Driver) : Prop :=
  s.info.id_gpiod = false ∧ s.info.vbus_gpiod = true ∧
  s.info.id_irq = 0 ∧ s.info.vbus_irq ≠ 0

instance (s : Driver) : Decidable (vbus_only s) := by
  unfold vbus_only; infer_instance

/-- What can happen to the driver after probe: an edge on the VBUS line (the
handler runs), the run of the delayed work, a direct forced run of the
detector, a suspend, a resume, a call of `otg_switch_mode`. -/
inductive Event where
  | vbus_edge
  | work (id_level vbus_level : Int)
  | forced (id_level vbus_level : Int)
  | suspend (env : PmEnv)
  | resume (env : PmEnv)
  | otg (value : Int) (env : OtgEnv)
  deriving DecidableEq, Repr

/-- The state after one event. -/
def apply_event (VENDOR_KERNEL : Bool) (s : Driver) : Event → Driver
  | .vbus_edge => usb_irq_handler s s.info.vbus_irq
  | .work i v => worker s i v
  | .forced i v => usb_extcon_detect_cable s i v
  | .suspend env => (usb_extcon_suspend s env).2
  | .resume env => (usb_extcon_resume s env).2
  | .otg value env => (otg_switch_mode VENDOR_KERNEL s value env).1

/-- The state after a sequence of events. -/
def run_events (VENDOR_KERNEL : Bool) (s : Driver) : List Event → Driver
  | [] => s
  | ev :: evs => run_events VENDOR_KERNEL (apply_event VENDOR_KERNEL s ev) evs

/-- State after a successful probe of the VBUS-only platform, VBUS reading 0. -/
def probed_vbus_only : Driver :=
  (usb_extcon_probe false module_load (vbus_only_env 0)).2

/-- Events used to exercise the VBUS-only driver: a VBUS edge and its
evaluation, an enable and a disable call of the OTG switch, a suspend and a
resume with the evaluation it schedules, a direct forced run. -/
def sample_events : List Event :=
  [ Event.vbus_edge, Event.work 1 1, Event.otg 1 ⟨true, KRet.ok, 0⟩,
    Event.otg 0 ⟨true, KRet.ok, 0⟩, Event.suspend pm_ok, Event.resume pm_ok,
    Event.work 0 0, Event.forced 0 1 ]

/-- Modelled from the spec: the timer side of the single-slot delayed work
(the workqueue core is not at hand).  The driver state together with the
time, in jiffies, at which the pending evaluation is due; each scheduling
replaces the pending timer, so the due time counts from the latest scheduling. -/
structure Clocked where
  drv : Driver
  due : Option Nat
  deriving DecidableEq, Repr

/-- An edge on interrupt `irq` at time `now`: `usb_irq_handler` runs and the
evaluation it schedules is due its delay after `now`. -/
def edge_at (c : Clocked) (now : Nat) (irq : Int) : Clocked :=
  { drv := usb_irq_handler c.drv irq
    due := (usb_irq_handler c.drv irq).wq_detcable.map (fun d => now + d) }

/-- A burst of edges, each given by its time and its interrupt number,
delivered in order with no run of the delayed work in between. -/
def edges_at (c : Clocked) : List (Nat × Int) → Clocked
  | [] => c
  | e :: es => edges_at (edge_at c e.1 e.2) es

/-! ## Theorems -/

/-- The detector never touches the device instance. -/
theorem detect_info (s : Driver) (i v : Int) :
    (usb_extcon_detect_cable s i v).info = s.info := by
  simp only [usb_extcon_detect_cable, set_state]
  split_ifs <;> rfl

/-- The detector clears the trigger record. -/
theorem detect_cur_irq (s : Driver) (i v : Int) :
    (usb_extcon_detect_cable s i v).cur_irq = 0 := rfl

/-- C2: a detector run whose trigger record is the ID interrupt (ID line
present) and whose ID reading is 0 ends with Host published active,
Peripheral published inactive and role Host, for every prior state and every
VBUS level. -/
theorem detect_id_trigger_low (s : Driver) (id_level vbus_level : Int)
    (hid : s.info.id_gpiod = true) (htrig : s.cur_irq = s.info.id_irq)
    (hlow : gpiod_get_value_cansleep s.info.id_gpiod id_level = 0) :
    (usb_extcon_detect_cable s id_level vbus_level).edev.usb_host = true ∧
    (usb_extcon_detect_cable s id_level vbus_level).edev.usb = false ∧
    (usb_extcon_detect_cable s id_level vbus_level).usb_state = EXTCON_USB_HOST := by
  rw [hid] at hlow
  simp [usb_extcon_detect_cable, set_state, extcon_set_state_sync, hid, htrig, hlow,
    EXTCON_USB, EXTCON_USB_HOST]

/-- Instance of C2 on the probed two-line platform: ID interrupt recorded,
ID reading 0, VBUS reading 1. -/
theorem detect_id_trigger_low_witness :
    (usb_extcon_detect_cable { probed_both with cur_irq := 37 } 0 1).edev.usb_host = true ∧
    (usb_extcon_detect_cable { probed_both with cur_irq := 37 } 0 1).edev.usb = false ∧
    (usb_extcon_detect_cable { probed_both with cur_irq := 37 } 0 1).usb_state
      = EXTCON_USB_HOST :=
  detect_id_trigger_low { probed_both with cur_irq := 37 } 0 1
    (by decide) (by decide) (by decide)

/-- C3: a detector run whose trigger record is the ID interrupt (ID line
present) and whose ID reading is non-zero ends with role None and Host
published inactive, and leaves the Peripheral flag as it was, for every prior
state and every VBUS level. -/
theorem detect_id_trigger_high (s : Driver) (id_level vbus_level : Int)
    (hid : s.info.id_gpiod = true) (htrig : s.cur_irq = s.info.id_irq)
    (hhigh : gpiod_get_value_cansleep s.info.id_gpiod id_level ≠ 0) :
    (usb_extcon_detect_cable s id_level vbus_level).usb_state = EXTCON_NONE ∧
    (usb_extcon_detect_cable s id_level vbus_level).edev.usb_host = false ∧
    (usb_extcon_detect_cable s id_level vbus_level).edev.usb = s.edev.usb := by
  rw [hid] at hhigh
  simp [usb_extcon_detect_cable, set_state, extcon_set_state_sync, hid, htrig, hhigh,
    EXTCON_USB, EXTCON_USB_HOST]

/-- Instance of C3: Peripheral and Host both published, ID interrupt
recorded, ID reading 1, VBUS reading 0; Peripheral stays published. -/
theorem detect_id_trigger_high_witness :
    (usb_extcon_detect_cable
      { probed_both with cur_irq := 37, edev := { usb := true, usb_host := true } } 1 0).usb_state
      = EXTCON_NONE ∧
    (usb_extcon_detect_cable
      { probed_both with cur_irq := 37, edev := { usb := true, usb_host := true } } 1 0).edev.usb_host
      = false ∧
    (usb_extcon_detect_cable
      { probed_both with cur_irq := 37, edev := { usb := true, usb_host := true } } 1 0).edev.usb
      = ({ probed_both with cur_irq := 37,
                            edev := { usb := true, usb_host := true } } : Driver).edev.usb :=
  detect_id_trigger_high
    { probed_both with cur_irq := 37, edev := { usb := true, usb_host := true } } 1 0
    (by decide) (by decide) (by decide)

/-- C4: a detector run whose trigger record is the VBUS interrupt and not the
ID interrupt publishes Peripheral active with role Peripheral when VBUS reads
non-zero, publishes Peripheral inactive with role None when VBUS reads 0,
leaves the Host flag as it was, and gives the same state for any two ID
levels. -/
theorem detect_vbus_trigger (s : Driver) (id_level id_level2 vbus_level : Int)
    (htrig : s.cur_irq = s.info.vbus_irq)
    (hnot : ¬ (s.info.id_gpiod = true ∧ s.cur_irq = s.info.id_irq)) :
    (gpiod_get_value_cansleep s.info.vbus_gpiod vbus_level ≠ 0 →
      (usb_extcon_detect_cable s id_level vbus_level).edev.usb = true ∧
      (usb_extcon_detect_cable s id_level vbus_level).usb_state = EXTCON_USB) ∧
    (gpiod_get_value_cansleep s.info.vbus_gpiod vbus_level = 0 →
      (usb_extcon_detect_cable s id_level vbus_level).edev.usb = false ∧
      (usb_extcon_detect_cable s id_level vbus_level).usb_state = EXTCON_NONE) ∧
    (usb_extcon_detect_cable s id_level vbus_level).edev.usb_host = s.edev.usb_host ∧
    usb_extcon_detect_cable s id_level2 vbus_level
      = usb_extcon_detect_cable s id_level vbus_level := by
  have hnot2 : ¬ (s.info.id_gpiod = true ∧ s.info.vbus_irq = s.info.id_irq) := by
    rw [← htrig]; exact hnot
  refine ⟨?_, ?_, ?_, ?_⟩
  · intro hv
    simp [usb_extcon_detect_cable, set_state, extcon_set_state_sync, htrig, hnot2, hv,
      EXTCON_USB, EXTCON_USB_HOST]
  · intro hv
    simp [usb_extcon_detect_cable, set_state, extcon_set_state_sync, htrig, hnot2, hv,
      EXTCON_USB, EXTCON_USB_HOST, EXTCON_NONE]
  · simp only [usb_extcon_detect_cable, set_state, extcon_set_state_sync, htrig, hnot2,
      if_false, if_true, EXTCON_USB, EXTCON_USB_HOST]
    split_ifs <;> simp
  · simp only [usb_extcon_detect_cable, htrig, hnot2, if_false, if_true]

/-- Instance of C4 on the probed two-line platform with Host published: VBUS
interrupt recorded, VBUS reading 1, ID levels 0 and 1. -/
theorem detect_vbus_trigger_witness :
    (gpiod_get_value_cansleep
        ({ probed_both with cur_irq := 38,
                            edev := { usb := false, usb_host := true } } : Driver).info.vbus_gpiod 1
        ≠ 0 →
      (usb_extcon_detect_cable
        { probed_both with cur_irq := 38, edev := { usb := false, usb_host := true } } 0 1).edev.usb
        = true ∧
      (usb_extcon_detect_cable
        { probed_both with cur_irq := 38,
                           edev := { usb := false, usb_host := true } } 0 1).usb_state
        = EXTCON_USB) ∧
    (gpiod_get_value_cansleep
        ({ probed_both with cur_irq := 38,
                            edev := { usb := false, usb_host := true } } : Driver).info.vbus_gpiod 1
        = 0 →
      (usb_extcon_detect_cable
        { probed_both with cur_irq := 38, edev := { usb := false, usb_host := true } } 0 1).edev.usb
        = false ∧
      (usb_extcon_detect_cable
        { probed_both with cur_irq := 38,
                           edev := { usb := false, usb_host := true } } 0 1).usb_state
        = EXTCON_NONE) ∧
    (usb_extcon_detect_cable
      { probed_both with cur_irq := 38,
                         edev := { usb := false, usb_host := true } } 0 1).edev.usb_host
      = ({ probed_both with cur_irq := 38,
                            edev := { usb := false, usb_host := true } } : Driver).edev.usb_host ∧
    usb_extcon_detect_cable
      { probed_both with cur_irq := 38, edev := { usb := false, usb_host := true } } 1 1
      = usb_extcon_detect_cable
      { probed_both with cur_irq := 38, edev := { usb := false, usb_host := true } } 0 1 :=
  detect_vbus_trigger
    { probed_both with cur_irq := 38, edev := { usb := false, usb_host := true } } 0 1 1
    (by decide) (by decide)

/-- An ID-triggered evaluation is the detector run with the ID interrupt
recorded. -/
theorem evaluate_id (s : Driver) (i v : Int) :
    evaluate s ⟨Trigger.id, i, v⟩
      = usb_extcon_detect_cable
          { s with cur_irq := s.info.id_irq, wq_detcable := none } i v := rfl

/-- A VBUS-triggered evaluation is the detector run with the VBUS interrupt
recorded. -/
theorem evaluate_vbus (s : Driver) (i v : Int) :
    evaluate s ⟨Trigger.vbus, i, v⟩
      = usb_extcon_detect_cable
          { s with cur_irq := s.info.vbus_irq, wq_detcable := none } i v := rfl

/-- A forced evaluation is the detector run on the trigger record as it is. -/
theorem evaluate_forced (s : Driver) (i v : Int) :
    evaluate s ⟨Trigger.forced, i, v⟩
      = usb_extcon_detect_cable { s with wq_detcable := none } i v := rfl

/-- An evaluation never touches the device instance. -/
theorem evaluate_info (s : Driver) (e : Eval) : (evaluate s e).info = s.info := by
  obtain ⟨tr, i, v⟩ := e
  cases tr
  · rw [evaluate_id, detect_info]
  · rw [evaluate_vbus, detect_info]
  · rw [evaluate_forced, detect_info]

/-- An evaluation leaves the trigger record cleared. -/
theorem evaluate_cur_irq (s : Driver) (e : Eval) : (evaluate s e).cur_irq = 0 := by
  obtain ⟨tr, i, v⟩ := e
  cases tr <;> rfl

/-- An evaluation leaves no work pending. -/
theorem evaluate_wq (s : Driver) (e : Eval) : (evaluate s e).wq_detcable = none := by
  obtain ⟨tr, i, v⟩ := e
  cases tr <;>
    simp only [evaluate_id, evaluate_vbus, evaluate_forced, usb_extcon_detect_cable,
      set_state] <;>
    split_ifs <;> rfl

/-- A sequence of evaluations never touches the device instance. -/
theorem evaluations_info (es : List Eval) (s : Driver) :
    (evaluations s es).info = s.info := by
  induction es generalizing s with
  | nil => rfl
  | cons e es ih => rw [evaluations, ih, evaluate_info]

/-- Evaluating a sequence and then one more evaluation. -/
theorem evaluations_append (es : List Eval) (s : Driver) (e : Eval) :
    evaluations s (es ++ [e]) = evaluate (evaluations s es) e := by
  induction es generalizing s with
  | nil => rfl
  | cons a es ih =>
    show evaluations (evaluate s a) (es ++ [e]) = evaluate (evaluations (evaluate s a) es) e
    exact ih (evaluate s a)

/-- Being wired on both lines is kept by every sequence of evaluations. -/
theorem evaluations_both_wired (es : List Eval) (s : Driver) (hw : both_wired s) :
    both_wired (evaluations s es) := by
  unfold both_wired at *
  rw [evaluations_info]
  exact hw

/-- C1, evaluated on the code: from the state after probe (role None, nothing
published, both lines wired), an ID-triggered evaluation reading ID = 0
followed by a VBUS-triggered evaluation reading ID = 0, VBUS = 1 ends with
Peripheral and Host both published active. -/
theorem usb_and_host_both_active :
    both_wired probed_both ∧ initial probed_both ∧
    (evaluations probed_both [⟨Trigger.id, 0, 0⟩, ⟨Trigger.vbus, 0, 1⟩]).edev.usb = true ∧
    (evaluations probed_both [⟨Trigger.id, 0, 0⟩, ⟨Trigger.vbus, 0, 1⟩]).edev.usb_host
      = true := by
  decide

/-- C5, evaluated on the code: on the ID-only platform (VBUS line absent, so
`vbus_irq` is 0) with host sensing on, an ID-triggered evaluation reading
ID = 0 records role Host with no interrupt recorded; the forced detector run
that follows, still reading ID = 0, takes the VBUS branch and records role
None. -/
theorem id_only_forced_run_drops_host :
    (usb_extcon_probe false module_load (id_only_env 1)).1 = 0 ∧
    (evaluate otg_on_id_only ⟨Trigger.id, 0, 0⟩).usb_state = EXTCON_USB_HOST ∧
    (evaluate otg_on_id_only ⟨Trigger.id, 0, 0⟩).edev.usb_host = true ∧
    (evaluate otg_on_id_only ⟨Trigger.id, 0, 0⟩).cur_irq = 0 ∧
    (evaluate otg_on_id_only ⟨Trigger.id, 0, 0⟩).info.vbus_irq = 0 ∧
    (usb_extcon_detect_cable (evaluate otg_on_id_only ⟨Trigger.id, 0, 0⟩) 0 0).usb_state
      = EXTCON_NONE := by
  decide

/-- The forced run from role Host behaves as described whenever the cleared
trigger record matches neither line: role None when ID reads non-zero, role
Host with Host published when ID reads 0.  This covers the two-line wiring
and the VBUS-only wiring. -/
theorem forced_from_host (s : Driver) (id_level vbus_level : Int)
    (hc : s.cur_irq = 0) (hr : s.usb_state = EXTCON_USB_HOST)
    (hid : s.info.id_gpiod = true → s.info.id_irq ≠ 0) (hv : s.info.vbus_irq ≠ 0) :
    (gpiod_get_value_cansleep s.info.id_gpiod id_level ≠ 0 →
      (usb_extcon_detect_cable s id_level vbus_level).usb_state = EXTCON_NONE) ∧
    (gpiod_get_value_cansleep s.info.id_gpiod id_level = 0 →
      (usb_extcon_detect_cable s id_level vbus_level).usb_state = EXTCON_USB_HOST ∧
      (usb_extcon_detect_cable s id_level vbus_level).edev.usb_host = true) := by
  have h1 : ¬ (s.info.id_gpiod = true ∧ (0 : Int) = s.info.id_irq) := by
    rintro ⟨a, b⟩
    exact hid a b.symm
  have h2 : ¬ ((0 : Int) = s.info.vbus_irq) := fun h => hv h.symm
  constructor
  · intro h
    simp [usb_extcon_detect_cable, set_state, extcon_set_state_sync, hc, hr, h1, h2, h,
      EXTCON_NONE, EXTCON_USB, EXTCON_USB_HOST]
  · intro h
    simp [usb_extcon_detect_cable, set_state, extcon_set_state_sync, hc, hr, h1, h2, h,
      EXTCON_NONE, EXTCON_USB, EXTCON_USB_HOST]

/-- C8: from an initial state with both lines wired, a VBUS-triggered
evaluation reading VBUS non-zero gives Peripheral active with role
Peripheral; a following ID-triggered evaluation reading ID = 0 gives
Peripheral inactive, Host active, role Host; a following ID-triggered
evaluation reading ID non-zero gives Host inactive, role None. -/
theorem scenario_vbus_then_host_then_none (s : Driver) (i1 v1 v2 i3 v3 : Int)
    (hw : both_wired s) (hi : initial s) (hv1 : v1 ≠ 0) (hi3 : i3 ≠ 0) :
    ((evaluations s [⟨Trigger.vbus, i1, v1⟩]).edev.usb = true ∧
     (evaluations s [⟨Trigger.vbus, i1, v1⟩]).usb_state = EXTCON_USB) ∧
    ((evaluations s [⟨Trigger.vbus, i1, v1⟩, ⟨Trigger.id, 0, v2⟩]).edev.usb = false ∧
     (evaluations s [⟨Trigger.vbus, i1, v1⟩, ⟨Trigger.id, 0, v2⟩]).edev.usb_host = true ∧
     (evaluations s [⟨Trigger.vbus, i1, v1⟩, ⟨Trigger.id, 0, v2⟩]).usb_state
       = EXTCON_USB_HOST) ∧
    ((evaluations s [⟨Trigger.vbus, i1, v1⟩, ⟨Trigger.id, 0, v2⟩,
        ⟨Trigger.id, i3, v3⟩]).edev.usb_host = false ∧
     (evaluations s [⟨Trigger.vbus, i1, v1⟩, ⟨Trigger.id, 0, v2⟩,
        ⟨Trigger.id, i3, v3⟩]).usb_state = EXTCON_NONE) := by
  obtain ⟨hg, hvg, -, -, hne⟩ := hw
  obtain ⟨-, -, hh, -⟩ := hi
  have hne2 : ¬ (s.info.vbus_irq = s.info.id_irq) := fun h => hne h.symm
  simp [evaluations, evaluate_id, evaluate_vbus, usb_extcon_detect_cable, set_state,
    extcon_set_state_sync, gpiod_get_value_cansleep, hg, hvg, hne2, hv1, hi3, hh,
    EXTCON_NONE, EXTCON_USB, EXTCON_USB_HOST]

/-- Instance of C8 from the probed two-line platform with host sensing on:
VBUS edge reading (1, 1), ID edge reading (0, 1), ID edge reading (1, 0). -/
theorem scenario_vbus_then_host_then_none_witness :
    ((evaluations otg_on_both [⟨Trigger.vbus, 1, 1⟩]).edev.usb = true ∧
     (evaluations otg_on_both [⟨Trigger.vbus, 1, 1⟩]).usb_state = EXTCON_USB) ∧
    ((evaluations otg_on_both [⟨Trigger.vbus, 1, 1⟩, ⟨Trigger.id, 0, 1⟩]).edev.usb = false ∧
     (evaluations otg_on_both [⟨Trigger.vbus, 1, 1⟩, ⟨Trigger.id, 0, 1⟩]).edev.usb_host
       = true ∧
     (evaluations otg_on_both [⟨Trigger.vbus, 1, 1⟩, ⟨Trigger.id, 0, 1⟩]).usb_state
       = EXTCON_USB_HOST) ∧
    ((evaluations otg_on_both [⟨Trigger.vbus, 1, 1⟩, ⟨Trigger.id, 0, 1⟩,
        ⟨Trigger.id, 1, 0⟩]).edev.usb_host = false ∧
     (evaluations otg_on_both [⟨Trigger.vbus, 1, 1⟩, ⟨Trigger.id, 0, 1⟩,
        ⟨Trigger.id, 1, 0⟩]).usb_state = EXTCON_NONE) :=
  scenario_vbus_then_host_then_none otg_on_both 1 1 1 1 0
    (by decide) (by decide) (by decide) (by decide)

/-- What the detector publishes depends only on the device instance, the
published flags, the role and the trigger record. -/
theorem detect_edev_congr (s t : Driver) (i v : Int) (h1 : s.info = t.info)
    (h2 : s.edev = t.edev) (h3 : s.usb_state = t.usb_state) (h4 : s.cur_irq = t.cur_irq) :
    (usb_extcon_detect_cable s i v).edev = (usb_extcon_detect_cable t i v).edev := by
  simp only [usb_extcon_detect_cable, set_state, h1, h2, h3, h4]
  split_ifs <;> first | rfl | exact h2

/-- Suspend touches neither the detector state nor the delayed work. -/
theorem suspend_core (s : Driver) (env : PmEnv) :
    (usb_extcon_suspend s env).2.info = s.info ∧
    (usb_extcon_suspend s env).2.edev = s.edev ∧
    (usb_extcon_suspend s env).2.usb_state = s.usb_state ∧
    (usb_extcon_suspend s env).2.cur_irq = s.cur_irq ∧
    (usb_extcon_suspend s env).2.wq_detcable = s.wq_detcable := by
  obtain ⟨a, b, c⟩ := env
  cases a <;> cases b <;> cases c <;>
    simp only [usb_extcon_suspend, enable_irq_wake_id, enable_irq_wake_vbus,
      disable_irq_wake_id] <;>
    split_ifs <;> simp

/-- Resume does not touch the detector state; the delayed work is either as
before or scheduled with zero delay. -/
theorem resume_core (s : Driver) (env : PmEnv) :
    (usb_extcon_resume s env).2.info = s.info ∧
    (usb_extcon_resume s env).2.edev = s.edev ∧
    (usb_extcon_resume s env).2.usb_state = s.usb_state ∧
    (usb_extcon_resume s env).2.cur_irq = s.cur_irq ∧
    ((usb_extcon_resume s env).2.wq_detcable = s.wq_detcable ∨
     (usb_extcon_resume s env).2.wq_detcable = some 0) := by
  obtain ⟨a, b, c⟩ := env
  cases a <;> cases b <;> cases c <;>
    simp only [usb_extcon_resume, enable_irq_wake_id, disable_irq_wake_vbus,
      disable_irq_wake_id, queue_delayed_work] <;>
    split_ifs <;> simp

/-- After an evaluation with both lines wired, role Peripheral means that
Peripheral is published and VBUS was read non-zero, and role Host means that
Host is published and ID was read 0. -/
theorem evaluate_role_sound (t : Driver) (e : Eval) (hw : both_wired t) :
    ((evaluate t e).usb_state = EXTCON_USB →
      (evaluate t e).edev.usb = true ∧ e.vbus_level ≠ 0) ∧
    ((evaluate t e).usb_state = EXTCON_USB_HOST →
      (evaluate t e).edev.usb_host = true ∧ e.id_level = 0) := by
  obtain ⟨hg, hvg, -, -, hne⟩ := hw
  have hne2 : ¬ (t.info.vbus_irq = t.info.id_irq) := fun h => hne h.symm
  obtain ⟨tr, i, v⟩ := e
  cases tr
  · simp only [evaluate_id, usb_extcon_detect_cable, set_state, extcon_set_state_sync,
      gpiod_get_value_cansleep, hg, hvg, EXTCON_NONE, EXTCON_USB, EXTCON_USB_HOST]
    split_ifs <;> simp_all
  · simp only [evaluate_vbus, usb_extcon_detect_cable, set_state, extcon_set_state_sync,
      gpiod_get_value_cansleep, hg, hvg, EXTCON_NONE, EXTCON_USB, EXTCON_USB_HOST]
    split_ifs <;> simp_all
  · simp only [evaluate_forced, usb_extcon_detect_cable, set_state, extcon_set_state_sync,
      gpiod_get_value_cansleep, hg, hvg, EXTCON_NONE, EXTCON_USB, EXTCON_USB_HOST]
    split_ifs <;> simp_all

/-- A forced detector run on a state with both lines wired and no interrupt
recorded republishes nothing new when the role is Peripheral with Peripheral
published and VBUS non-zero, Host with Host published and ID zero, or None
with Host unpublished and Peripheral published exactly when VBUS is non-zero. -/
theorem forced_stable (s : Driver) (i v : Int) (hw : both_wired s) (hc : s.cur_irq = 0)
    (h : (s.usb_state = EXTCON_USB ∧ s.edev.usb = true ∧ v ≠ 0) ∨
         (s.usb_state = EXTCON_USB_HOST ∧ s.edev.usb_host = true ∧ i = 0) ∨
         (s.usb_state = EXTCON_NONE ∧ s.edev.usb_host = false ∧
           s.edev.usb = decide (v ≠ 0))) :
    (usb_extcon_detect_cable s i v).edev = s.edev := by
  obtain ⟨hg, hvg, hi0, hv0, -⟩ := hw
  have h1 : ¬ ((0 : Int) = s.info.id_irq) := fun h => hi0 h.symm
  have h2 : ¬ ((0 : Int) = s.info.vbus_irq) := fun h => hv0 h.symm
  have hext : ∀ a b : extcon_dev, a.usb = b.usb → a.usb_host = b.usb_host → a = b := by
    intro a b hu hh
    cases a; cases b; simp_all
  rcases h with ⟨hr, hu, hv⟩ | ⟨hr, hh, hi⟩ | ⟨hr, hh, hu⟩
  · apply hext <;>
      simp [usb_extcon_detect_cable, set_state, extcon_set_state_sync,
        gpiod_get_value_cansleep, hg, hvg, hc, h1, h2, hr, hu, hv,
        EXTCON_NONE, EXTCON_USB, EXTCON_USB_HOST]
  · apply hext <;>
      simp [usb_extcon_detect_cable, set_state, extcon_set_state_sync,
        gpiod_get_value_cansleep, hg, hvg, hc, h1, h2, hr, hh, hi,
        EXTCON_NONE, EXTCON_USB, EXTCON_USB_HOST]
  · by_cases hv : v = 0
    · apply hext <;>
        simp [usb_extcon_detect_cable, set_state, extcon_set_state_sync,
          gpiod_get_value_cansleep, hg, hvg, hc, h1, h2, hr, hh, hu, hv,
          EXTCON_NONE, EXTCON_USB, EXTCON_USB_HOST]
    · apply hext <;>
        simp [usb_extcon_detect_cable, set_state, extcon_set_state_sync,
          gpiod_get_value_cansleep, hg, hvg, hc, h1, h2, hr, hh, hu, hv,
          EXTCON_NONE, EXTCON_USB, EXTCON_USB_HOST]

/-- C6 as stated fails: from the probed two-line platform with host sensing
on, an ID-triggered evaluation reading ID = 1, VBUS = 1 leaves nothing
published and no interrupt recorded; the forced evaluation of a suspend
followed by a resume, reading ID = 1, VBUS = 1 again, publishes Peripheral. -/
theorem resume_publishes_peripheral :
    both_wired otg_on_both ∧ initial otg_on_both ∧
    (evaluations otg_on_both [⟨Trigger.id, 1, 1⟩]).cur_irq = 0 ∧
    (evaluations otg_on_both [⟨Trigger.id, 1, 1⟩]).edev
      = { usb := false, usb_host := false } ∧
    (worker (usb_extcon_resume
              (usb_extcon_suspend (evaluations otg_on_both [⟨Trigger.id, 1, 1⟩]) pm_ok).2
              pm_ok).2 1 1).edev
      = { usb := true, usb_host := false } := by
  decide

/-- C6, amended: in a state reached from an initial state by detector
evaluations with both lines wired, the last of which sampled
`(e.id_level, e.vbus_level)`, the evaluation run after a suspend followed by a
resume on the same levels leaves both published flags unchanged, provided the
recorded role is Peripheral or Host, or is None with Host unpublished and
Peripheral published exactly when VBUS reads non-zero; this holds for every
outcome of the wake calls. -/
theorem resume_keeps_published (s0 : Driver) (es : List Eval) (e : Eval) (env1 env2 : PmEnv)
    (hw : both_wired s0) (_hi : initial s0)
    (hrole : (evaluations s0 (es ++ [e])).usb_state = EXTCON_USB ∨
             (evaluations s0 (es ++ [e])).usb_state = EXTCON_USB_HOST ∨
             ((evaluations s0 (es ++ [e])).usb_state = EXTCON_NONE ∧
              (evaluations s0 (es ++ [e])).edev.usb_host = false ∧
              (evaluations s0 (es ++ [e])).edev.usb = decide (e.vbus_level ≠ 0))) :
    (worker (usb_extcon_resume
              (usb_extcon_suspend (evaluations s0 (es ++ [e])) env1).2 env2).2
        e.id_level e.vbus_level).edev
      = (evaluations s0 (es ++ [e])).edev := by
  rw [evaluations_append] at hrole ⊢
  have hwt : both_wired (evaluations s0 es) := evaluations_both_wired es s0 hw
  generalize evaluations s0 es = t at hrole hwt ⊢
  have hws : both_wired (evaluate t e) := by
    unfold both_wired at *
    rw [evaluate_info]
    exact hwt
  obtain ⟨hU, hH⟩ := evaluate_role_sound t e hwt
  have hstable : (usb_extcon_detect_cable (evaluate t e) e.id_level e.vbus_level).edev
      = (evaluate t e).edev := by
    apply forced_stable _ _ _ hws (evaluate_cur_irq t e)
    rcases hrole with h | h | h
    · exact Or.inl ⟨h, hU h⟩
    · exact Or.inr (Or.inl ⟨h, hH h⟩)
    · exact Or.inr (Or.inr h)
  obtain ⟨a1, a2, a3, a4, a5⟩ := suspend_core (evaluate t e) env1
  obtain ⟨b1, b2, b3, b4, b5⟩ := resume_core (usb_extcon_suspend (evaluate t e) env1).2 env2
  generalize (usb_extcon_resume (usb_extcon_suspend (evaluate t e) env1).2 env2).2 = r
    at b1 b2 b3 b4 b5 ⊢
  unfold worker
  cases hq : r.wq_detcable with
  | none => simp only [b2, a2]
  | some d =>
    simp only
    rw [← hstable]
    apply detect_edev_congr
    · simp only [b1, a1]
    · simp only [b2, a2]
    · simp only [b3, a3]
    · simp only [b4, a4]

/-- Instance of the amended C6: VBUS edge reading (1, 1), then ID edge
reading (0, 1) giving role Host; suspend and resume with every wake call
succeeding. -/
theorem resume_keeps_published_witness :
    (worker (usb_extcon_resume
              (usb_extcon_suspend
                (evaluations otg_on_both ([⟨Trigger.vbus, 1, 1⟩] ++ [⟨Trigger.id, 0, 1⟩]))
                pm_ok).2 pm_ok).2
        (⟨Trigger.id, 0, 1⟩ : Eval).id_level (⟨Trigger.id, 0, 1⟩ : Eval).vbus_level).edev
      = (evaluations otg_on_both ([⟨Trigger.vbus, 1, 1⟩] ++ [⟨Trigger.id, 0, 1⟩])).edev :=
  resume_keeps_published otg_on_both [⟨Trigger.vbus, 1, 1⟩] ⟨Trigger.id, 0, 1⟩ pm_ok pm_ok
    (by decide) (by decide) (by decide)

/-- C7 as stated fails: with host sensing on and Host published active,
`otg_switch_mode(0)` called while the ID line reads 1 returns with Host still
published active. -/
theorem otg_off_id_high_keeps_host :
    host_active_both.otg_switch_flage ≠ 0 ∧ host_active_both.info.id_gpiod = true ∧
    host_active_both.edev.usb_host = true ∧
    (otg_switch_mode false host_active_both 0
      { ioremap_ok := true, request_irq_ret := KRet.ok, id_level := 1 }).1.edev.usb_host
      = true := by
  decide

/-- C7, amended: with host sensing on (flag set, ID line present) and the
register mapping obtained, `otg_switch_mode(0)` returns with Host published
inactive when the ID line reads 0, and with the Host flag as it was before the
call when the ID line reads non-zero; the Peripheral flag is not touched. -/
theorem otg_off_host_flag (vk : Bool) (s : Driver) (env : OtgEnv)
    (hflag : s.otg_switch_flage ≠ 0) (hid : s.info.id_gpiod = true)
    (hmap : env.ioremap_ok = true) :
    (env.id_level = 0 → (otg_switch_mode vk s 0 env).1.edev.usb_host = false) ∧
    (env.id_level ≠ 0 → (otg_switch_mode vk s 0 env).1.edev.usb_host = s.edev.usb_host) ∧
    (otg_switch_mode vk s 0 env).1.edev.usb = s.edev.usb := by
  refine ⟨?_, ?_, ?_⟩
  · intro h
    simp [otg_switch_mode, gpiod_get_value_cansleep, set_state, extcon_set_state_sync,
      hflag, hid, hmap, h, EXTCON_USB, EXTCON_USB_HOST]
  · intro h
    simp [otg_switch_mode, gpiod_get_value_cansleep, set_state, extcon_set_state_sync,
      hflag, hid, hmap, h, EXTCON_USB, EXTCON_USB_HOST]
  · by_cases h : env.id_level = 0 <;>
      simp [otg_switch_mode, gpiod_get_value_cansleep, set_state, extcon_set_state_sync,
        hflag, hid, hmap, h, EXTCON_USB, EXTCON_USB_HOST]

/-- Instance of the amended C7: host sensing on, Host published, ID line
reading 0 at the time of the call. -/
theorem otg_off_host_flag_witness :
    (({ ioremap_ok := true, request_irq_ret := KRet.ok, id_level := 0 } : OtgEnv).id_level = 0 →
      (otg_switch_mode false host_active_both 0
        { ioremap_ok := true, request_irq_ret := KRet.ok, id_level := 0 }).1.edev.usb_host
        = false) ∧
    (({ ioremap_ok := true, request_irq_ret := KRet.ok, id_level := 0 } : OtgEnv).id_level ≠ 0 →
      (otg_switch_mode false host_active_both 0
        { ioremap_ok := true, request_irq_ret := KRet.ok, id_level := 0 }).1.edev.usb_host
        = host_active_both.edev.usb_host) ∧
    (otg_switch_mode false host_active_both 0
      { ioremap_ok := true, request_irq_ret := KRet.ok, id_level := 0 }).1.edev.usb
      = host_active_both.edev.usb :=
  otg_off_host_flag false host_active_both
    { ioremap_ok := true, request_irq_ret := KRet.ok, id_level := 0 }
    (by decide) (by decide) (by decide)

/-- C9: from the disabled state with the ID line present, two consecutive
calls `otg_switch_mode(1)`, the first of which attaches the interrupt, issue
in total exactly one pull-up write and exactly one interrupt attach (on the
ID interrupt), and the second call returns the state unchanged. -/
theorem otg_on_twice (vk : Bool) (s : Driver) (env1 env2 : OtgEnv)
    (hid : s.info.id_gpiod = true) (hoff : s.otg_switch_flage = 0)
    (hmap : env1.ioremap_ok = true) (hok : env1.request_irq_ret = KRet.ok) :
    List.countP (HwOp.is_pull_up vk)
      ((otg_switch_mode vk s 1 env1).2
        ++ (otg_switch_mode vk (otg_switch_mode vk s 1 env1).1 1 env2).2) = 1 ∧
    List.countP HwOp.is_request_irq
      ((otg_switch_mode vk s 1 env1).2
        ++ (otg_switch_mode vk (otg_switch_mode vk s 1 env1).1 1 env2).2) = 1 ∧
    List.count (HwOp.request_irq s.info.id_irq)
      ((otg_switch_mode vk s 1 env1).2
        ++ (otg_switch_mode vk (otg_switch_mode vk s 1 env1).1 1 env2).2) = 1 ∧
    (otg_switch_mode vk (otg_switch_mode vk s 1 env1).1 1 env2).1
      = (otg_switch_mode vk s 1 env1).1 := by
  have h1 : otg_switch_mode vk s 1 env1
      = ({ s with usb_id_reg := some (USB_ID_PULL_UP vk), id_irq_requested := true,
                  otg_switch_flage := 1 },
         [HwOp.ioremap, HwOp.writel (USB_ID_PULL_UP vk), HwOp.msleep 100,
          HwOp.request_irq s.info.id_irq, HwOp.iounmap]) := by
    simp [otg_switch_mode, hid, hoff, hmap, hok, KRet.val]
  rw [h1]
  cases hm : env2.ioremap_ok <;>
    simp [otg_switch_mode, hid, hm, HwOp.is_pull_up, HwOp.is_request_irq, List.countP_cons,
      List.count_cons]

/-- Instance of C9 from the probed two-line platform, the second call meeting
a failing attach result it never uses. -/
theorem otg_on_twice_witness :
    List.countP (HwOp.is_pull_up false)
      ((otg_switch_mode false probed_both 1 ⟨true, KRet.ok, 0⟩).2
        ++ (otg_switch_mode false (otg_switch_mode false probed_both 1 ⟨true, KRet.ok, 0⟩).1 1
              ⟨true, KRet.err 15, 0⟩).2) = 1 ∧
    List.countP HwOp.is_request_irq
      ((otg_switch_mode false probed_both 1 ⟨true, KRet.ok, 0⟩).2
        ++ (otg_switch_mode false (otg_switch_mode false probed_both 1 ⟨true, KRet.ok, 0⟩).1 1
              ⟨true, KRet.err 15, 0⟩).2) = 1 ∧
    List.count (HwOp.request_irq probed_both.info.id_irq)
      ((otg_switch_mode false probed_both 1 ⟨true, KRet.ok, 0⟩).2
        ++ (otg_switch_mode false (otg_switch_mode false probed_both 1 ⟨true, KRet.ok, 0⟩).1 1
              ⟨true, KRet.err 15, 0⟩).2) = 1 ∧
    (otg_switch_mode false (otg_switch_mode false probed_both 1 ⟨true, KRet.ok, 0⟩).1 1
        ⟨true, KRet.err 15, 0⟩).1
      = (otg_switch_mode false probed_both 1 ⟨true, KRet.ok, 0⟩).1 :=
  otg_on_twice false probed_both ⟨true, KRet.ok, 0⟩ ⟨true, KRet.err 15, 0⟩
    (by decide) (by decide) rfl rfl

/-- The pull-up and pull-down register values differ. -/
theorem pull_up_ne_pull_down (vk : Bool) : USB_ID_PULL_UP vk ≠ USB_ID_PULL_DOWN vk := by
  cases vk <;> decide

/-- One call of `otg_switch_mode` keeps the switch consistent with the wiring. -/
theorem otg_switch_mode_consistent (vk : Bool) (s : Driver) (value : Int) (env : OtgEnv)
    (h : otg_consistent vk s) : otg_consistent vk (otg_switch_mode vk s value env).1 := by
  obtain ⟨hid, h⟩ := h
  unfold otg_consistent
  rcases h with ⟨hf, hr, hb⟩ | ⟨hf, hr, hb⟩
  · simp only [otg_switch_mode, hid, hf]
    split_ifs <;> simp_all [set_state]
  · simp only [otg_switch_mode, hid, hf]
    split_ifs <;> simp_all [set_state]

/-- Every sequence of `otg_switch_mode` calls keeps the switch consistent
with the wiring. -/
theorem otg_calls_consistent (vk : Bool) (calls : List OtgCall) (s : Driver)
    (h : otg_consistent vk s) : otg_consistent vk (otg_calls vk s calls) := by
  induction calls generalizing s with
  | nil => exact h
  | cons c cs ih => exact ih _ (otg_switch_mode_consistent vk s c.value c.env h)

/-- The detector does not touch the OTG flag. -/
theorem detect_otg_switch_flage (s : Driver) (i v : Int) :
    (usb_extcon_detect_cable s i v).otg_switch_flage = s.otg_switch_flage := by
  simp only [usb_extcon_detect_cable, set_state]
  split_ifs <;> rfl

/-- The detector does not touch the attachment of the ID interrupt. -/
theorem detect_id_irq_requested (s : Driver) (i v : Int) :
    (usb_extcon_detect_cable s i v).id_irq_requested = s.id_irq_requested := by
  simp only [usb_extcon_detect_cable, set_state]
  split_ifs <;> rfl

/-- The detector does not touch the USB_ID pin register. -/
theorem detect_usb_id_reg (s : Driver) (i v : Int) :
    (usb_extcon_detect_cable s i v).usb_id_reg = s.usb_id_reg := by
  simp only [usb_extcon_detect_cable, set_state]
  split_ifs <;> rfl

/-- When the second half of probe succeeds on a state with the ID line
present, it keeps the flag and the attachment of the ID interrupt and leaves
the bias pulled down. -/
theorem probe_irqs_ok (vk : Bool) (s : Driver) (env : ProbeEnv)
    (hret : (probe_irqs vk s env).1 = 0) (hid : s.info.id_gpiod = true) :
    (probe_irqs vk s env).2.info.id_gpiod = true ∧
    (probe_irqs vk s env).2.otg_switch_flage = s.otg_switch_flage ∧
    (probe_irqs vk s env).2.id_irq_requested = s.id_irq_requested ∧
    (probe_irqs vk s env).2.usb_id_reg = some (USB_ID_PULL_DOWN vk) := by
  simp only [probe_irqs, hid] at hret ⊢
  split_ifs at hret ⊢ <;>
    first
    | omega
    | (exfalso; revert hret; simp [EINVAL]; done)
    | (simp only [detect_info, detect_otg_switch_flage, detect_id_irq_requested,
        detect_usb_id_reg]
       simp_all)

/-- The debounce set-up keeps everything but `debounce_jiffies`. -/
theorem probe_debounce_frame (s : Driver) (env : ProbeEnv) (ret : Int) :
    (probe_debounce s env ret).info.id_gpiod = s.info.id_gpiod ∧
    (probe_debounce s env ret).otg_switch_flage = s.otg_switch_flage ∧
    (probe_debounce s env ret).id_irq_requested = s.id_irq_requested := by
  simp only [probe_debounce]
  split_ifs <;> simp

/-- When the middle part of probe succeeds on a state with the ID line
present, it keeps the flag and the attachment of the ID interrupt and leaves
the bias pulled down. -/
theorem probe_register_ok (vk : Bool) (s : Driver) (env : ProbeEnv)
    (hret : (probe_register vk s env).1 = 0) (hid : s.info.id_gpiod = true) :
    (probe_register vk s env).2.info.id_gpiod = true ∧
    (probe_register vk s env).2.otg_switch_flage = s.otg_switch_flage ∧
    (probe_register vk s env).2.id_irq_requested = s.id_irq_requested ∧
    (probe_register vk s env).2.usb_id_reg = some (USB_ID_PULL_DOWN vk) := by
  unfold probe_register at hret ⊢
  split_ifs at hret ⊢ with h1 h2
  · exfalso; revert hret; simp [ENOMEM]
  · exfalso; simp only at hret; omega
  · obtain ⟨f1, f2, f3⟩ := probe_debounce_frame
      { s with edev := { usb := false, usb_host := false }, edev_registered := true }
      env env.register_ret.val
    obtain ⟨g1, g2, g3, g4⟩ := probe_irqs_ok vk _ env hret (by rw [f1]; exact hid)
    exact ⟨g1, by rw [g2, f2], by rw [g3, f3], g4⟩

/-- A successful probe on a platform with an ID line, from the module-load
state, ends with the flag clear, the ID interrupt unattached and the bias
pulled down. -/
theorem probe_otg_consistent (vk : Bool) (env : ProbeEnv)
    (hret : (usb_extcon_probe vk module_load env).1 = 0)
    (hid : env.id_gpiod = GpiodResult.desc) :
    otg_consistent vk (usb_extcon_probe vk module_load env).2 := by
  unfold otg_consistent
  unfold usb_extcon_probe at hret ⊢
  by_cases h1 : env.of_node = false
  · rw [if_pos h1] at hret
    exfalso; revert hret; simp [EINVAL]
  rw [if_neg h1] at hret ⊢
  by_cases h2 : env.kzalloc_ok = false
  · rw [if_pos h2] at hret
    exfalso; revert hret; simp [ENOMEM]
  rw [if_neg h2] at hret ⊢
  have h3 : ¬ (env.id_gpiod.nonnull = false ∧ env.vbus_gpiod.nonnull = false) := by
    simp [hid, GpiodResult.nonnull]
  simp only [] at hret ⊢
  rw [if_neg h3] at hret ⊢
  rw [hid] at hret ⊢
  cases hv : env.vbus_gpiod <;> rw [hv] at hret <;> simp only at hret ⊢
  · obtain ⟨g1, g2, g3, g4⟩ := probe_register_ok vk _ env hret (by simp [GpiodResult.nonnull])
    exact ⟨g1, Or.inl ⟨by rw [g2]; rfl, by rw [g3]; rfl, g4⟩⟩
  · exfalso; omega
  · obtain ⟨g1, g2, g3, g4⟩ := probe_register_ok vk _ env hret (by simp [GpiodResult.nonnull])
    exact ⟨g1, Or.inl ⟨by rw [g2]; rfl, by rw [g3]; rfl, g4⟩⟩

/-- C10: after every sequence of `otg_switch_mode` calls started from a state
with the ID line present, the flag clear, the ID interrupt unattached and the
bias pulled down, whatever each call meets, the flag is set iff the ID
interrupt is attached iff the bias is pulled up; and an enable whose attach
fails returns the state it was called in, so from the disabled state the flag
stays clear, the interrupt unattached and the bias pulled down. -/
theorem otg_flag_tracks_wiring (vk : Bool) (s0 : Driver) (calls : List OtgCall)
    (hid : s0.info.id_gpiod = true) (hflag : s0.otg_switch_flage = 0)
    (hirq : s0.id_irq_requested = false)
    (hreg : s0.usb_id_reg = some (USB_ID_PULL_DOWN vk)) :
    ((otg_calls vk s0 calls).otg_switch_flage ≠ 0 ↔
      (otg_calls vk s0 calls).id_irq_requested = true) ∧
    ((otg_calls vk s0 calls).id_irq_requested = true ↔
      (otg_calls vk s0 calls).usb_id_reg = some (USB_ID_PULL_UP vk)) ∧
    (∀ (value : Int) (env : OtgEnv), value ≠ 0 → env.request_irq_ret ≠ KRet.ok →
      (otg_switch_mode vk (otg_calls vk s0 calls) value env).1 = otg_calls vk s0 calls ∧
      ((otg_calls vk s0 calls).otg_switch_flage = 0 →
        (otg_switch_mode vk (otg_calls vk s0 calls) value env).1.otg_switch_flage = 0 ∧
        (otg_switch_mode vk (otg_calls vk s0 calls) value env).1.id_irq_requested = false ∧
        (otg_switch_mode vk (otg_calls vk s0 calls) value env).1.usb_id_reg
          = some (USB_ID_PULL_DOWN vk))) := by
  have hc : otg_consistent vk (otg_calls vk s0 calls) :=
    otg_calls_consistent vk calls s0 ⟨hid, Or.inl ⟨hflag, hirq, hreg⟩⟩
  generalize otg_calls vk s0 calls = s at hc ⊢
  obtain ⟨hg, hc⟩ := hc
  have hne := pull_up_ne_pull_down vk
  refine ⟨?_, ?_, ?_⟩
  · rcases hc with ⟨a, b, -⟩ | ⟨a, b, -⟩ <;> simp [a, b]
  · rcases hc with ⟨-, b, c⟩ | ⟨-, b, c⟩
    · simp [b, c, hne.symm]
    · simp [b, c]
  · intro value env hval hfail
    have hneg : env.request_irq_ret.val < 0 := by
      cases hr : env.request_irq_ret with
      | ok => exact absurd hr hfail
      | err e => simp only [KRet.val]; omega
    have heq : (otg_switch_mode vk s value env).1 = s := by
      rcases hc with ⟨a, b, c⟩ | ⟨a, b, c⟩
      · simp only [otg_switch_mode, hg, hneg, hval]
        cases s
        split_ifs <;> simp_all
      · simp only [otg_switch_mode, hg, hneg, hval]
        cases s
        split_ifs <;> simp_all
    refine ⟨heq, ?_⟩
    intro hz
    rw [heq]
    rcases hc with ⟨a, b, c⟩ | ⟨a, b, c⟩
    · exact ⟨a, b, c⟩
    · exact absurd hz a

/-- Instance of C10 from the probed two-line platform, after an enable whose
attach fails, a successful enable, a repeated enable, a disable and a repeated
disable. -/
theorem otg_flag_tracks_wiring_witness :
    ((otg_calls false probed_both sample_calls).otg_switch_flage ≠ 0 ↔
      (otg_calls false probed_both sample_calls).id_irq_requested = true) ∧
    ((otg_calls false probed_both sample_calls).id_irq_requested = true ↔
      (otg_calls false probed_both sample_calls).usb_id_reg = some (USB_ID_PULL_UP false)) ∧
    (∀ (value : Int) (env : OtgEnv), value ≠ 0 → env.request_irq_ret ≠ KRet.ok →
      (otg_switch_mode false (otg_calls false probed_both sample_calls) value env).1
        = otg_calls false probed_both sample_calls ∧
      ((otg_calls false probed_both sample_calls).otg_switch_flage = 0 →
        (otg_switch_mode false (otg_calls false probed_both sample_calls) value
          env).1.otg_switch_flage = 0 ∧
        (otg_switch_mode false (otg_calls false probed_both sample_calls) value
          env).1.id_irq_requested = false ∧
        (otg_switch_mode false (otg_calls false probed_both sample_calls) value
          env).1.usb_id_reg = some (USB_ID_PULL_DOWN false))) :=
  otg_flag_tracks_wiring false probed_both sample_calls
    (by decide) (by decide) (by decide) (by decide)

/-- A kernel result is 0 exactly when the call succeeded. -/
theorem KRet.val_eq_zero (r : KRet) : r.val = 0 ↔ r = KRet.ok := by
  cases r with
  | ok => simp [KRet.val]
  | err e => simp only [KRet.val, reduceCtorEq, iff_false]; omega

/-- A kernel result is negative exactly when the call failed. -/
theorem KRet.val_neg (r : KRet) : r.val < 0 ↔ r ≠ KRet.ok := by
  cases r with
  | ok => simp [KRet.val]
  | err e => simp only [KRet.val, ne_eq, reduceCtorEq, not_false_eq_true, iff_true]; omega

/-- C11 as stated fails: `otg_switch_mode` returns no value, so no reading of
what the caller receives tells a failed attach from a successful one, already
for enable calls on the probed two-line platform in the disabled state. -/
theorem otg_switch_mode_ret_blind :
    ¬ ∃ is_failure : Unit → Bool, ∀ env : OtgEnv, env.ioremap_ok = true →
        (is_failure (otg_switch_mode_ret false probed_both 1 env) = true ↔
          env.request_irq_ret ≠ KRet.ok) := by
  rintro ⟨f, h⟩
  have h1 := h { ioremap_ok := true, request_irq_ret := KRet.ok, id_level := 0 } rfl
  have h2 := h { ioremap_ok := true, request_irq_ret := KRet.err 15, id_level := 0 } rfl
  simp only [otg_switch_mode_ret, ne_eq, not_true_eq_false, iff_false, reduceCtorEq,
    not_false_eq_true, iff_true] at h1 h2
  exact h1 h2

/-- C11, amended: `otg_switch_mode` returns nothing; for an enable call from
the disabled state (ID line present, register mapping obtained) the outcome
of the attach shows in the state at return: the OTG flag is set, and the ID
interrupt attached, exactly when attaching the ID interrupt succeeded. -/
theorem otg_enable_flag_reports_attach (vk : Bool) (s : Driver) (value : Int) (env : OtgEnv)
    (hid : s.info.id_gpiod = true) (hoff : s.otg_switch_flage = 0)
    (hirq : s.id_irq_requested = false) (hval : value ≠ 0)
    (hmap : env.ioremap_ok = true) :
    ((otg_switch_mode vk s value env).1.otg_switch_flage ≠ 0 ↔
      env.request_irq_ret = KRet.ok) ∧
    ((otg_switch_mode vk s value env).1.id_irq_requested = true ↔
      env.request_irq_ret = KRet.ok) := by
  by_cases hr : env.request_irq_ret = KRet.ok
  · simp [otg_switch_mode, hid, hoff, hval, hmap, hr, KRet.val]
  · have h : env.request_irq_ret.val < 0 := (KRet.val_neg _).2 hr
    simp [otg_switch_mode, hid, hoff, hirq, hval, hmap, h, hr]

/-- Instance of the amended C11: an enable on the probed two-line platform
whose attach fails. -/
theorem otg_enable_flag_reports_attach_witness :
    ((otg_switch_mode false probed_both 1
        { ioremap_ok := true, request_irq_ret := KRet.err 15, id_level := 0 }).1.otg_switch_flage
        ≠ 0 ↔
      ({ ioremap_ok := true, request_irq_ret := KRet.err 15, id_level := 0 }
        : OtgEnv).request_irq_ret = KRet.ok) ∧
    ((otg_switch_mode false probed_both 1
        { ioremap_ok := true, request_irq_ret := KRet.err 15, id_level := 0 }).1.id_irq_requested
        = true ↔
      ({ ioremap_ok := true, request_irq_ret := KRet.err 15, id_level := 0 }
        : OtgEnv).request_irq_ret = KRet.ok) :=
  otg_enable_flag_reports_attach false probed_both 1
    { ioremap_ok := true, request_irq_ret := KRet.err 15, id_level := 0 }
    (by decide) (by decide) (by decide) (by decide) (by decide)

/-- C12, amended: on a wake source `usb_extcon_suspend` returns 0 exactly when
every arming call it makes succeeds, and when it returns an error the arming
depth of both lines is as before the call provided the disarm call that rolls
the ID line back succeeds (its result is not looked at); on a device that is
not a wake source it arms nothing, selects the sleep pin state and returns 0. -/
theorem suspend_all_or_nothing (s : Driver) (env : PmEnv) :
    (s.may_wakeup = true →
      ((usb_extcon_suspend s env).1 = 0 ↔ wake_calls_ok s env) ∧
      ((usb_extcon_suspend s env).1 ≠ 0 → env.rollback_ret = KRet.ok →
        (usb_extcon_suspend s env).2.id_wake = s.id_wake ∧
        (usb_extcon_suspend s env).2.vbus_wake = s.vbus_wake)) ∧
    (s.may_wakeup = false →
      (usb_extcon_suspend s env).1 = 0 ∧
      (usb_extcon_suspend s env).2.id_wake = s.id_wake ∧
      (usb_extcon_suspend s env).2.vbus_wake = s.vbus_wake ∧
      (usb_extcon_suspend s env).2.pinctrl_sleep = true) := by
  obtain ⟨a, b, c⟩ := env
  constructor
  · intro hw
    cases hi : s.info.id_gpiod <;> cases hv : s.info.vbus_gpiod <;>
      cases a <;> cases b <;> cases c <;>
      simp [usb_extcon_suspend, wake_calls_ok, enable_irq_wake_id, enable_irq_wake_vbus,
        disable_irq_wake_id, hw, hi, hv, KRet.val_eq_zero]
  · intro hw
    simp [usb_extcon_suspend, hw]

/-- Instance of the amended C12 on the probed two-line wake source: arming ID
succeeds, arming VBUS fails, the rollback succeeds. -/
theorem suspend_all_or_nothing_witness :
    (wake_both.may_wakeup = true →
      ((usb_extcon_suspend wake_both ⟨KRet.ok, KRet.err 15, KRet.ok⟩).1 = 0 ↔
        wake_calls_ok wake_both ⟨KRet.ok, KRet.err 15, KRet.ok⟩) ∧
      ((usb_extcon_suspend wake_both ⟨KRet.ok, KRet.err 15, KRet.ok⟩).1 ≠ 0 →
        (⟨KRet.ok, KRet.err 15, KRet.ok⟩ : PmEnv).rollback_ret = KRet.ok →
        (usb_extcon_suspend wake_both ⟨KRet.ok, KRet.err 15, KRet.ok⟩).2.id_wake
          = wake_both.id_wake ∧
        (usb_extcon_suspend wake_both ⟨KRet.ok, KRet.err 15, KRet.ok⟩).2.vbus_wake
          = wake_both.vbus_wake)) ∧
    (wake_both.may_wakeup = false →
      (usb_extcon_suspend wake_both ⟨KRet.ok, KRet.err 15, KRet.ok⟩).1 = 0 ∧
      (usb_extcon_suspend wake_both ⟨KRet.ok, KRet.err 15, KRet.ok⟩).2.id_wake
        = wake_both.id_wake ∧
      (usb_extcon_suspend wake_both ⟨KRet.ok, KRet.err 15, KRet.ok⟩).2.vbus_wake
        = wake_both.vbus_wake ∧
      (usb_extcon_suspend wake_both ⟨KRet.ok, KRet.err 15, KRet.ok⟩).2.pinctrl_sleep = true) :=
  suspend_all_or_nothing wake_both ⟨KRet.ok, KRet.err 15, KRet.ok⟩

/-- C13 as stated fails: on the probed two-line wake source, a resume whose
disarm call on the ID interrupt fails returns an error and leaves no
evaluation scheduled. -/
theorem resume_failed_disarm_schedules_nothing :
    wake_both.may_wakeup = true ∧ wake_both.wq_detcable = none ∧
    (usb_extcon_resume wake_both ⟨KRet.err 15, KRet.ok, KRet.ok⟩).1 ≠ 0 ∧
    (usb_extcon_resume wake_both ⟨KRet.err 15, KRet.ok, KRet.ok⟩).2.wq_detcable = none := by
  decide

/-- C13, amended: for every wiring `usb_extcon_resume` returns 0 exactly when
the device is not a wake source or every disarm call it makes succeeds; when
it returns 0 the detector is scheduled once with zero delay, and when it
returns an error the delayed work is left as it was and the value returned is
that of the failing disarm call (the ID call when the ID line is present and
its disarm fails, the VBUS call otherwise). -/
theorem resume_schedules_on_success (s : Driver) (env : PmEnv) :
    ((usb_extcon_resume s env).1 = 0 ↔ (s.may_wakeup = true → wake_calls_ok s env)) ∧
    ((usb_extcon_resume s env).1 = 0 →
      (usb_extcon_resume s env).2.wq_detcable = some 0) ∧
    ((usb_extcon_resume s env).1 ≠ 0 →
      (usb_extcon_resume s env).2.wq_detcable = s.wq_detcable) ∧
    ((usb_extcon_resume s env).1 ≠ 0 →
      (usb_extcon_resume s env).1
        = (if s.info.id_gpiod = true ∧ env.id_ret ≠ KRet.ok then env.id_ret.val
           else env.vbus_ret.val)) := by
  obtain ⟨a, b, c⟩ := env
  cases hw : s.may_wakeup <;> cases hi : s.info.id_gpiod <;> cases hv : s.info.vbus_gpiod <;>
    cases a <;> cases b <;> cases c <;>
    simp [usb_extcon_resume, wake_calls_ok, enable_irq_wake_id, disable_irq_wake_vbus,
      disable_irq_wake_id, queue_delayed_work, hw, hi, hv, KRet.val_eq_zero]

/-- Instance of the amended C13 on the probed two-line wake source with every
disarm call succeeding. -/
theorem resume_schedules_on_success_witness :
    ((usb_extcon_resume wake_both pm_ok).1 = 0 ↔
      (wake_both.may_wakeup = true → wake_calls_ok wake_both pm_ok)) ∧
    ((usb_extcon_resume wake_both pm_ok).1 = 0 →
      (usb_extcon_resume wake_both pm_ok).2.wq_detcable = some 0) ∧
    ((usb_extcon_resume wake_both pm_ok).1 ≠ 0 →
      (usb_extcon_resume wake_both pm_ok).2.wq_detcable = wake_both.wq_detcable) ∧
    ((usb_extcon_resume wake_both pm_ok).1 ≠ 0 →
      (usb_extcon_resume wake_both pm_ok).1
        = (if wake_both.info.id_gpiod = true ∧ pm_ok.id_ret ≠ KRet.ok then pm_ok.id_ret.val
           else pm_ok.vbus_ret.val)) :=
  resume_schedules_on_success wake_both pm_ok

/-- C14: when neither sense line is provided `usb_extcon_probe` returns an
error (`-ENODEV` once the node and the allocation are there) and returns with
no extcon device registered, no interrupt attached, nothing published, the
role, the trigger record, the delayed work and the USB_ID register as they
were: the detector, which always clears the trigger record, has not run. -/
theorem probe_without_lines_fails (vk : Bool) (g : Driver) (env : ProbeEnv)
    (hid : env.id_gpiod = GpiodResult.null) (hv : env.vbus_gpiod = GpiodResult.null) :
    (usb_extcon_probe vk g env).1 < 0 ∧
    (env.of_node = true → env.kzalloc_ok = true →
      (usb_extcon_probe vk g env).1 = -ENODEV) ∧
    (usb_extcon_probe vk g env).2.edev_registered = g.edev_registered ∧
    (usb_extcon_probe vk g env).2.id_irq_requested = g.id_irq_requested ∧
    (usb_extcon_probe vk g env).2.vbus_irq_requested = g.vbus_irq_requested ∧
    (usb_extcon_probe vk g env).2.edev = g.edev ∧
    (usb_extcon_probe vk g env).2.usb_state = g.usb_state ∧
    (usb_extcon_probe vk g env).2.cur_irq = g.cur_irq ∧
    (usb_extcon_probe vk g env).2.wq_detcable = g.wq_detcable ∧
    (usb_extcon_probe vk g env).2.usb_id_reg = g.usb_id_reg := by
  unfold usb_extcon_probe
  by_cases h1 : env.of_node = false
  · rw [if_pos h1]
    simp [EINVAL, h1]
  rw [if_neg h1]
  by_cases h2 : env.kzalloc_ok = false
  · rw [if_pos h2]
    simp [ENOMEM, h2]
  rw [if_neg h2]
  have h3 : env.id_gpiod.nonnull = false ∧ env.vbus_gpiod.nonnull = false := by
    simp [hid, hv, GpiodResult.nonnull]
  simp only []
  rw [if_pos h3]
  simp [ENODEV]

/-- Instance of C14: probe of the platform without sense lines from the
module-load state with an interrupt number left in the trigger record. -/
theorem probe_without_lines_fails_witness :
    (usb_extcon_probe false { module_load with cur_irq := 38 } no_lines_env).1 < 0 ∧
    (no_lines_env.of_node = true → no_lines_env.kzalloc_ok = true →
      (usb_extcon_probe false { module_load with cur_irq := 38 } no_lines_env).1 = -ENODEV) ∧
    (usb_extcon_probe false { module_load with cur_irq := 38 } no_lines_env).2.edev_registered
      = ({ module_load with cur_irq := 38 } : Driver).edev_registered ∧
    (usb_extcon_probe false { module_load with cur_irq := 38 } no_lines_env).2.id_irq_requested
      = ({ module_load with cur_irq := 38 } : Driver).id_irq_requested ∧
    (usb_extcon_probe false { module_load with cur_irq := 38 } no_lines_env).2.vbus_irq_requested
      = ({ module_load with cur_irq := 38 } : Driver).vbus_irq_requested ∧
    (usb_extcon_probe false { module_load with cur_irq := 38 } no_lines_env).2.edev
      = ({ module_load with cur_irq := 38 } : Driver).edev ∧
    (usb_extcon_probe false { module_load with cur_irq := 38 } no_lines_env).2.usb_state
      = ({ module_load with cur_irq := 38 } : Driver).usb_state ∧
    (usb_extcon_probe false { module_load with cur_irq := 38 } no_lines_env).2.cur_irq
      = ({ module_load with cur_irq := 38 } : Driver).cur_irq ∧
    (usb_extcon_probe false { module_load with cur_irq := 38 } no_lines_env).2.wq_detcable
      = ({ module_load with cur_irq := 38 } : Driver).wq_detcable ∧
    (usb_extcon_probe false { module_load with cur_irq := 38 } no_lines_env).2.usb_id_reg
      = ({ module_load with cur_irq := 38 } : Driver).usb_id_reg :=
  probe_without_lines_fails false { module_load with cur_irq := 38 } no_lines_env
    (by decide) (by decide)

/-- A second departure from the state table: with both lines wired, an
ID-triggered evaluation from the initial state that reads ID = 1 and VBUS = 1
leaves USB unpublished, where row [1] of the table asks for USB active. -/
theorem id_trigger_ignores_vbus :
    both_wired otg_on_both ∧ initial otg_on_both ∧
    ¬ ((evaluate otg_on_both ⟨Trigger.id, 1, 1⟩).edev.usb = true ↔
        ((1 : Int) ≠ 0 ∧ (1 : Int) ≠ 0)) := by
  decide

/-- What each kind of evaluation publishes with both lines wired: the
published state follows the trigger.  After an ID-triggered evaluation USB-HOST is active iff ID reads 0,
and USB is inactive whenever ID reads 0.  After a VBUS-triggered evaluation
USB is active iff VBUS reads non-zero.  After a forced evaluation with no
interrupt recorded: from role None USB-HOST is inactive and USB is active iff
VBUS reads non-zero; from role Peripheral USB is active iff VBUS reads
non-zero; from role Host USB-HOST is active iff ID reads 0. -/
theorem evaluate_published (s : Driver) (e : Eval) (hw : both_wired s) :
    (e.trig = Trigger.id →
      ((evaluate s e).edev.usb_host = true ↔ e.id_level = 0) ∧
      (e.id_level = 0 → (evaluate s e).edev.usb = false)) ∧
    (e.trig = Trigger.vbus →
      ((evaluate s e).edev.usb = true ↔ e.vbus_level ≠ 0)) ∧
    (e.trig = Trigger.forced → s.cur_irq = 0 →
      (s.usb_state = EXTCON_NONE →
        (evaluate s e).edev.usb_host = false ∧
        ((evaluate s e).edev.usb = true ↔ e.vbus_level ≠ 0)) ∧
      (s.usb_state = EXTCON_USB →
        ((evaluate s e).edev.usb = true ↔ e.vbus_level ≠ 0)) ∧
      (s.usb_state = EXTCON_USB_HOST →
        ((evaluate s e).edev.usb_host = true ↔ e.id_level = 0))) := by
  obtain ⟨hg, hvg, hi0, hv0, hne⟩ := hw
  have hne2 : ¬ (s.info.vbus_irq = s.info.id_irq) := fun h => hne h.symm
  have h1 : ¬ ((0 : Int) = s.info.id_irq) := fun h => hi0 h.symm
  have h2 : ¬ ((0 : Int) = s.info.vbus_irq) := fun h => hv0 h.symm
  obtain ⟨tr, i, v⟩ := e
  refine ⟨?_, ?_, ?_⟩
  · intro ht
    simp only at ht
    subst ht
    by_cases hi : i = 0 <;>
      simp [evaluate_id, usb_extcon_detect_cable, set_state, extcon_set_state_sync,
        gpiod_get_value_cansleep, hg, hvg, hi, EXTCON_NONE, EXTCON_USB, EXTCON_USB_HOST]
  · intro ht
    simp only at ht
    subst ht
    by_cases hv : v = 0 <;>
      simp [evaluate_vbus, usb_extcon_detect_cable, set_state, extcon_set_state_sync,
        gpiod_get_value_cansleep, hg, hvg, hne2, hv, EXTCON_NONE, EXTCON_USB, EXTCON_USB_HOST]
  · intro ht hc
    simp only at ht
    subst ht
    refine ⟨?_, ?_, ?_⟩
    · intro hr
      by_cases hv : v = 0 <;>
        simp [evaluate_forced, usb_extcon_detect_cable, set_state, extcon_set_state_sync,
          gpiod_get_value_cansleep, hg, hvg, hc, h1, h2, hr, hv,
          EXTCON_NONE, EXTCON_USB, EXTCON_USB_HOST]
    · intro hr
      by_cases hv : v = 0 <;>
        simp [evaluate_forced, usb_extcon_detect_cable, set_state, extcon_set_state_sync,
          gpiod_get_value_cansleep, hg, hvg, hc, h1, h2, hr, hv,
          EXTCON_NONE, EXTCON_USB, EXTCON_USB_HOST]
    · intro hr
      by_cases hi : i = 0 <;>
        simp [evaluate_forced, usb_extcon_detect_cable, set_state, extcon_set_state_sync,
          gpiod_get_value_cansleep, hg, hvg, hc, h1, h2, hr, hi,
          EXTCON_NONE, EXTCON_USB, EXTCON_USB_HOST]

/-- C17: a forced detector run (no interrupt recorded, both lines wired) from
role None or Peripheral records role Peripheral when VBUS reads non-zero and
None otherwise, publishes USB to match and never records role Host; from role
None it also publishes USB-HOST inactive; from role Host it never records role
Peripheral. -/
theorem forced_from_none_or_peripheral (s : Driver) (i v : Int)
    (hw : both_wired s) (hc : s.cur_irq = 0) :
    (s.usb_state = EXTCON_NONE ∨ s.usb_state = EXTCON_USB →
      (usb_extcon_detect_cable s i v).usb_state
        = (if v ≠ 0 then EXTCON_USB else EXTCON_NONE) ∧
      (usb_extcon_detect_cable s i v).edev.usb = decide (v ≠ 0) ∧
      (usb_extcon_detect_cable s i v).usb_state ≠ EXTCON_USB_HOST) ∧
    (s.usb_state = EXTCON_NONE →
      (usb_extcon_detect_cable s i v).edev.usb_host = false) ∧
    (s.usb_state = EXTCON_USB_HOST →
      (usb_extcon_detect_cable s i v).usb_state ≠ EXTCON_USB) := by
  obtain ⟨hg, hvg, hi0, hv0, -⟩ := hw
  have h1 : ¬ ((0 : Int) = s.info.id_irq) := fun h => hi0 h.symm
  have h2 : ¬ ((0 : Int) = s.info.vbus_irq) := fun h => hv0 h.symm
  refine ⟨?_, ?_, ?_⟩
  · rintro (hr | hr) <;> by_cases hv : v = 0 <;>
      simp [usb_extcon_detect_cable, set_state, extcon_set_state_sync,
        gpiod_get_value_cansleep, hg, hvg, hc, h1, h2, hr, hv,
        EXTCON_NONE, EXTCON_USB, EXTCON_USB_HOST]
  · intro hr
    by_cases hv : v = 0 <;>
      simp [usb_extcon_detect_cable, set_state, extcon_set_state_sync,
        gpiod_get_value_cansleep, hg, hvg, hc, h1, h2, hr, hv,
        EXTCON_NONE, EXTCON_USB, EXTCON_USB_HOST]
  · intro hr
    by_cases hi : i = 0 <;>
      simp [usb_extcon_detect_cable, set_state, extcon_set_state_sync,
        gpiod_get_value_cansleep, hg, hvg, hc, h1, h2, hr, hi,
        EXTCON_NONE, EXTCON_USB, EXTCON_USB_HOST]

/-- Instance of C17 on the probed two-line platform (role None, no interrupt
recorded), the lines reading ID = 0, VBUS = 1. -/
theorem forced_from_none_or_peripheral_witness :
    (probed_both.usb_state = EXTCON_NONE ∨ probed_both.usb_state = EXTCON_USB →
      (usb_extcon_detect_cable probed_both 0 1).usb_state
        = (if (1 : Int) ≠ 0 then EXTCON_USB else EXTCON_NONE) ∧
      (usb_extcon_detect_cable probed_both 0 1).edev.usb = decide ((1 : Int) ≠ 0) ∧
      (usb_extcon_detect_cable probed_both 0 1).usb_state ≠ EXTCON_USB_HOST) ∧
    (probed_both.usb_state = EXTCON_NONE →
      (usb_extcon_detect_cable probed_both 0 1).edev.usb_host = false) ∧
    (probed_both.usb_state = EXTCON_USB_HOST →
      (usb_extcon_detect_cable probed_both 0 1).usb_state ≠ EXTCON_USB) :=
  forced_from_none_or_peripheral probed_both 0 1 (by decide) (by decide)

/-- One evaluation from a known role, for any wiring: the role stays known,
role Host means the ID line was read as 0 and role Peripheral means the VBUS
line was read as non-zero in this evaluation. -/
theorem evaluate_role_step (t : Driver) (e : Eval) (h : role_known t) :
    role_known (evaluate t e) ∧
    ((evaluate t e).usb_state = EXTCON_USB_HOST →
      gpiod_get_value_cansleep t.info.id_gpiod e.id_level = 0) ∧
    ((evaluate t e).usb_state = EXTCON_USB →
      gpiod_get_value_cansleep t.info.vbus_gpiod e.vbus_level ≠ 0) := by
  unfold role_known at *
  obtain ⟨tr, i, v⟩ := e
  generalize hi : gpiod_get_value_cansleep t.info.id_gpiod i = ri
  generalize hv : gpiod_get_value_cansleep t.info.vbus_gpiod v = rv
  cases tr
  · simp only [evaluate_id, usb_extcon_detect_cable, set_state, hi, hv]
    split_ifs <;> simp_all [EXTCON_NONE, EXTCON_USB, EXTCON_USB_HOST]
  · simp only [evaluate_vbus, usb_extcon_detect_cable, set_state, hi, hv]
    split_ifs <;> simp_all [EXTCON_NONE, EXTCON_USB, EXTCON_USB_HOST]
  · simp only [evaluate_forced, usb_extcon_detect_cable, set_state, hi, hv]
    split_ifs <;> simp_all [EXTCON_NONE, EXTCON_USB, EXTCON_USB_HOST]

/-- A sequence of evaluations from a known role ends in a known role. -/
theorem evaluations_role_known (es : List Eval) (s : Driver) (h : role_known s) :
    role_known (evaluations s es) := by
  induction es generalizing s with
  | nil => exact h
  | cons e es ih => exact ih _ (evaluate_role_step s e h).1

/-- C18: for every wiring and every sequence of detector evaluations from an
initial state, after the last evaluation the role is None, Peripheral or
Host; role Host means the ID line was read as 0 in that evaluation, role
Peripheral means the VBUS line was read as non-zero in it; and the trigger
record is cleared. -/
theorem role_matches_last_reading (s0 : Driver) (es : List Eval) (e : Eval)
    (hi : initial s0) :
    role_known (evaluations s0 (es ++ [e])) ∧
    ((evaluations s0 (es ++ [e])).usb_state = EXTCON_USB_HOST →
      gpiod_get_value_cansleep s0.info.id_gpiod e.id_level = 0) ∧
    ((evaluations s0 (es ++ [e])).usb_state = EXTCON_USB →
      gpiod_get_value_cansleep s0.info.vbus_gpiod e.vbus_level ≠ 0) ∧
    (evaluations s0 (es ++ [e])).cur_irq = 0 := by
  have hk : role_known (evaluations s0 es) :=
    evaluations_role_known es s0 (Or.inl hi.1)
  have hinfo := evaluations_info es s0
  rw [evaluations_append]
  obtain ⟨h1, h2, h3⟩ := evaluate_role_step (evaluations s0 es) e hk
  rw [hinfo] at h2 h3
  exact ⟨h1, h2, h3, evaluate_cur_irq _ e⟩

/-- Instance of C18 on the ID-only platform with host sensing on: an ID edge
reading ID = 0 followed by a forced evaluation reading ID = 0. -/
theorem role_matches_last_reading_witness :
    role_known (evaluations otg_on_id_only
      ([⟨Trigger.id, 0, 0⟩] ++ [⟨Trigger.forced, 0, 0⟩])) ∧
    ((evaluations otg_on_id_only
        ([⟨Trigger.id, 0, 0⟩] ++ [⟨Trigger.forced, 0, 0⟩])).usb_state = EXTCON_USB_HOST →
      gpiod_get_value_cansleep otg_on_id_only.info.id_gpiod
        (⟨Trigger.forced, 0, 0⟩ : Eval).id_level = 0) ∧
    ((evaluations otg_on_id_only
        ([⟨Trigger.id, 0, 0⟩] ++ [⟨Trigger.forced, 0, 0⟩])).usb_state = EXTCON_USB →
      gpiod_get_value_cansleep otg_on_id_only.info.vbus_gpiod
        (⟨Trigger.forced, 0, 0⟩ : Eval).vbus_level ≠ 0) ∧
    (evaluations otg_on_id_only
      ([⟨Trigger.id, 0, 0⟩] ++ [⟨Trigger.forced, 0, 0⟩])).cur_irq = 0 :=
  role_matches_last_reading otg_on_id_only [⟨Trigger.id, 0, 0⟩] ⟨Trigger.forced, 0, 0⟩
    (by decide)

/-- Without an ID descriptor the detector keeps the role in None or
Peripheral and never publishes USB-HOST. -/
theorem detect_without_id (s : Driver) (i v : Int) (hid : s.info.id_gpiod = false)
    (hr : s.usb_state = EXTCON_NONE ∨ s.usb_state = EXTCON_USB)
    (hh : s.edev.usb_host = false) :
    ((usb_extcon_detect_cable s i v).usb_state = EXTCON_NONE ∨
      (usb_extcon_detect_cable s i v).usb_state = EXTCON_USB) ∧
    (usb_extcon_detect_cable s i v).edev.usb_host = false := by
  generalize hv : gpiod_get_value_cansleep s.info.vbus_gpiod v = rv
  simp only [usb_extcon_detect_cable, set_state, extcon_set_state_sync, hid, hv]
  split_ifs <;> simp_all [EXTCON_NONE, EXTCON_USB, EXTCON_USB_HOST]

/-- Without an ID descriptor `otg_switch_mode` returns at once: same state,
no operation issued. -/
theorem otg_switch_mode_without_id (vk : Bool) (s : Driver) (value : Int) (env : OtgEnv)
    (hid : s.info.id_gpiod = false) : otg_switch_mode vk s value env = (s, []) := by
  simp [otg_switch_mode, hid]

/-- Without an ID descriptor every event keeps the descriptor absent, the
role in None or Peripheral and USB-HOST unpublished. -/
theorem apply_event_without_id (vk : Bool) (s : Driver) (ev : Event)
    (hid : s.info.id_gpiod = false)
    (hr : s.usb_state = EXTCON_NONE ∨ s.usb_state = EXTCON_USB)
    (hh : s.edev.usb_host = false) :
    (apply_event vk s ev).info.id_gpiod = false ∧
    ((apply_event vk s ev).usb_state = EXTCON_NONE ∨
      (apply_event vk s ev).usb_state = EXTCON_USB) ∧
    (apply_event vk s ev).edev.usb_host = false := by
  cases ev with
  | vbus_edge => exact ⟨hid, hr, hh⟩
  | work i v =>
    simp only [apply_event, worker]
    cases hq : s.wq_detcable with
    | none => exact ⟨hid, hr, hh⟩
    | some d =>
      simp only
      obtain ⟨a, b⟩ := detect_without_id { s with wq_detcable := none } i v hid hr hh
      exact ⟨by rw [detect_info]; exact hid, a, b⟩
  | forced i v =>
    obtain ⟨a, b⟩ := detect_without_id s i v hid hr hh
    exact ⟨by simp only [apply_event]; rw [detect_info]; exact hid, a, b⟩
  | suspend env =>
    obtain ⟨a1, a2, a3, -, -⟩ := suspend_core s env
    simp only [apply_event]
    rw [a1, a2, a3]
    exact ⟨hid, hr, hh⟩
  | resume env =>
    obtain ⟨a1, a2, a3, -, -⟩ := resume_core s env
    simp only [apply_event]
    rw [a1, a2, a3]
    exact ⟨hid, hr, hh⟩
  | otg value env =>
    simp only [apply_event]
    rw [otg_switch_mode_without_id vk s value env hid]
    exact ⟨hid, hr, hh⟩

/-- C19: in a VBUS-only wiring, after every sequence of VBUS edges, runs of
the delayed work, forced detector runs, suspends, resumes and
`otg_switch_mode` calls from an initial state, the role is not Host, USB-HOST
is not published, and a call of `otg_switch_mode` returns the state unchanged
with no operation issued. -/
theorem vbus_only_never_host (vk : Bool) (s0 : Driver) (evs : List Event)
    (hw : vbus_only s0) (hi : initial s0) :
    (run_events vk s0 evs).usb_state ≠ EXTCON_USB_HOST ∧
    (run_events vk s0 evs).edev.usb_host = false ∧
    (∀ (value : Int) (env : OtgEnv),
      otg_switch_mode vk (run_events vk s0 evs) value env = (run_events vk s0 evs, [])) := by
  have key : ∀ (evs : List Event) (s : Driver), s.info.id_gpiod = false →
      (s.usb_state = EXTCON_NONE ∨ s.usb_state = EXTCON_USB) → s.edev.usb_host = false →
      (run_events vk s evs).info.id_gpiod = false ∧
      ((run_events vk s evs).usb_state = EXTCON_NONE ∨
        (run_events vk s evs).usb_state = EXTCON_USB) ∧
      (run_events vk s evs).edev.usb_host = false := by
    intro evs
    induction evs with
    | nil => intro s a b c; exact ⟨a, b, c⟩
    | cons ev evs ih =>
      intro s a b c
      obtain ⟨a1, b1, c1⟩ := apply_event_without_id vk s ev a b c
      exact ih _ a1 b1 c1
  obtain ⟨a, b, c⟩ := key evs s0 hw.1 (Or.inl hi.1) hi.2.2.1
  refine ⟨?_, c, fun value env => otg_switch_mode_without_id vk _ value env a⟩
  rcases b with b | b <;> rw [b] <;> decide

/-- Instance of C19 from the probed VBUS-only platform over a VBUS edge, its
evaluation, two OTG calls, a suspend / resume cycle and forced runs. -/
theorem vbus_only_never_host_witness :
    (run_events false probed_vbus_only sample_events).usb_state ≠ EXTCON_USB_HOST ∧
    (run_events false probed_vbus_only sample_events).edev.usb_host = false ∧
    (∀ (value : Int) (env : OtgEnv),
      otg_switch_mode false (run_events false probed_vbus_only sample_events) value env
        = (run_events false probed_vbus_only sample_events, [])) :=
  vbus_only_never_host false probed_vbus_only sample_events (by decide) (by decide)

/-- A burst of edges leaves the device instance as it was. -/
theorem edges_at_info (es : List (Nat × Int)) (c : Clocked) :
    (edges_at c es).drv.info = c.drv.info := by
  induction es generalizing c with
  | nil => rfl
  | cons e es ih => rw [edges_at, ih]; rfl

/-- A burst of edges followed by one more edge. -/
theorem edges_at_append (es : List (Nat × Int)) (c : Clocked) (e : Nat × Int) :
    edges_at c (es ++ [e]) = edge_at (edges_at c es) e.1 e.2 := by
  induction es generalizing c with
  | nil => rfl
  | cons a es ih =>
    show edges_at (edge_at c a.1 a.2) (es ++ [e]) = edge_at (edges_at (edge_at c a.1 a.2) es) e.1 e.2
    exact ih (edge_at c a.1 a.2)

/-- C16: after a burst of one or more edges handled by `usb_irq_handler`
with no run of the delayed work in between, the single work slot holds one
pending evaluation, the trigger record holds the interrupt of the last edge,
the evaluation is due `debounce_jiffies` after the time of the last edge, and
the run of the work leaves nothing pending. -/
theorem burst_collapses (c : Clocked) (es : List (Nat × Int)) (t : Nat) (irq : Int)
    (id_level vbus_level : Int) :
    (edges_at c (es ++ [(t, irq)])).drv.wq_detcable = some c.drv.info.debounce_jiffies ∧
    (edges_at c (es ++ [(t, irq)])).drv.cur_irq = irq ∧
    (edges_at c (es ++ [(t, irq)])).due = some (t + c.drv.info.debounce_jiffies) ∧
    (worker (edges_at c (es ++ [(t, irq)])).drv id_level vbus_level).wq_detcable = none := by
  rw [edges_at_append]
  have hinfo := edges_at_info es c
  generalize edges_at c es = d at hinfo
  have hq : (edge_at d t irq).drv.wq_detcable = some c.drv.info.debounce_jiffies := by
    simp [edge_at, usb_irq_handler, queue_delayed_work, hinfo]
  refine ⟨hq, rfl, ?_, ?_⟩
  · simp [edge_at, usb_irq_handler, queue_delayed_work, hinfo]
  · unfold worker
    rw [hq]
    simp only [usb_extcon_detect_cable, set_state]
    split_ifs <;> rfl

/-- C12 as stated fails: on the probed two-line wake source, arming ID
succeeds, arming VBUS fails and the rollback disarm of ID fails too; suspend
returns an error and the ID line, unarmed before the call, is left armed. -/
theorem suspend_failed_rollback_leaves_id_armed :
    wake_both.may_wakeup = true ∧ wake_both.id_wake = 0 ∧
    (usb_extcon_suspend wake_both ⟨KRet.ok, KRet.err 15, KRet.err 3⟩).1 ≠ 0 ∧
    (usb_extcon_suspend wake_both ⟨KRet.ok, KRet.err 15, KRet.err 3⟩).2.id_wake = 1 := by
  decide

/-- C15, evaluated on the code: with both lines wired and USB-HOST published
after an ID edge that read ID = 0, a VBUS-triggered evaluation reading ID = 0
and VBUS = 1 publishes USB and leaves USB-HOST published, where row [3] of the
state table asks for USB-HOST active and USB inactive. -/
theorem vbus_trigger_breaks_state_table :
    both_wired host_active_both ∧ host_active_both.edev.usb_host = true ∧
    (evaluate host_active_both ⟨Trigger.vbus, 0, 1⟩).edev.usb = true ∧
    (evaluate host_active_both ⟨Trigger.vbus, 0, 1⟩).edev.usb_host = true ∧
    ¬ ((evaluate host_active_both ⟨Trigger.vbus, 0, 1⟩).edev.usb = true ↔
        ((0 : Int) ≠ 0 ∧ (1 : Int) ≠ 0)) := by
  decide

end ExtconUsbGpio
